import Mathlib

/-!
Verification of the nbfc-linux fan-control service core.

The definitions below are a shallow embedding of the C sources:
service.c (service loop, register-write engine, config persistence),
server.c (control-server command handling and server thread),
service_config.c (service configuration load and write-back) and
model_config.c (model configuration validation).

C machine integers are modelled as Nat or Int; uint8_t register contents
are Nat values kept below 256 by explicit reduction mod 256 at each write.
C float and double values are modelled as Rat.  A C Error* chain is
modelled as a List String (outermost context first); NULL corresponds to
Except.ok.
-/

namespace Nbfc

/-! ## Enumerations from model_config.h -/

/-- RegisterWriteMode from model_config.h. -/
inductive RegisterWriteMode where
  | set
  | and
  | or
  | unset
deriving DecidableEq, Repr

/-- RegisterWriteOccasion from model_config.h. -/
inductive RegisterWriteOccasion where
  | onWriteFanSpeed
  | onInitialization
  | unset
deriving DecidableEq, Repr

/-- OverrideTargetOperation from model_config.h. -/
inductive OverrideTargetOperation where
  | read
  | write
  | readWrite
  | unset
deriving DecidableEq, Repr

/-- EmbeddedControllerType from model_config.h. -/
inductive EmbeddedControllerType where
  | ecSysLinux
  | ecSysLinuxACPI
  | ecLinux
  | ecDummy
  | unset
deriving DecidableEq, Repr

/-- TemperatureAlgorithmType from model_config.h. -/
inductive TemperatureAlgorithmType where
  | average
  | min
  | max
  | unset
deriving DecidableEq, Repr

/-- The three-valued Boolean enum from model_config.h
(Boolean_False = 0, Boolean_True = 1, Boolean_Unset = 2). -/
inductive Boolean where
  | bFalse
  | bTrue
  | bUnset
deriving DecidableEq, Repr

/-- C truthiness of the Boolean enum: any value other than
Boolean_False (= 0) is truthy in an if condition. -/
def Boolean.isTruthy : Boolean → Bool
  | .bFalse => false
  | _ => true

/-! ## Configuration structures (model_config.h generated structures) -/

/-- TemperatureThreshold: UpThreshold, DownThreshold (short, degrees C)
and FanSpeed (percent). -/
structure TemperatureThreshold where
  UpThreshold : Int
  DownThreshold : Int
  FanSpeed : Int
deriving DecidableEq, Repr

/-- FanSpeedPercentageOverride from the model config. -/
structure FanSpeedPercentageOverride where
  FanSpeedPercentage : Int
  FanSpeedValue : Nat
  TargetOperation : OverrideTargetOperation
deriving DecidableEq, Repr

/-- FanConfiguration from the model config. -/
structure FanConfiguration where
  FanDisplayName : Option String
  ReadRegister : Int
  WriteRegister : Int
  MinSpeedValue : Int
  MaxSpeedValue : Int
  IndependentReadMinMaxValues : Boolean
  MinSpeedValueRead : Int
  MaxSpeedValueRead : Int
  ResetRequired : Boolean
  FanSpeedResetValue : Nat
  TemperatureThresholds : List TemperatureThreshold
  FanSpeedPercentageOverrides : List FanSpeedPercentageOverride
deriving DecidableEq, Repr

/-- RegisterWriteConfiguration from the model config. -/
structure RegisterWriteConfiguration where
  Register : Int
  Value : Nat
  ResetValue : Nat
  ResetRequired : Boolean
  WriteMode : RegisterWriteMode
  ResetWriteMode : RegisterWriteMode
  WriteOccasion : RegisterWriteOccasion
  Description : Option String
deriving DecidableEq, Repr

/-- ModelConfig: the top-level model configuration structure. -/
structure ModelConfig where
  NotebookModel : Option String
  Author : Option String
  EcPollInterval : Int
  CriticalTemperature : Int
  ReadWriteWords : Bool
  LegacyTemperatureThresholdsBehaviour : Bool
  FanConfigurations : List FanConfiguration
  RegisterWriteConfigurations : List RegisterWriteConfiguration
deriving DecidableEq, Repr

/-- FanTemperatureSourceConfig from the service config. -/
structure FanTemperatureSourceConfig where
  FanIndex : Int
  TemperatureAlgorithmType : TemperatureAlgorithmType
  Sensors : List String
deriving DecidableEq, Repr

/-- ServiceConfig: the mutable, persisted service configuration
(service_config.h).  TargetFanSpeeds entries are C floats, modelled
as Rat. -/
structure ServiceConfig where
  SelectedConfigId : Option String
  EmbeddedControllerType : EmbeddedControllerType
  TargetFanSpeeds : List Rat
  FanTemperatureSources : List FanTemperatureSourceConfig
deriving DecidableEq, Repr

/-! ## Embedded-controller model

The EC backend is a vtable of byte read/write operations that can fail.
We model the EC as a register file (a total function from register
addresses to byte contents) together with per-register failure flags;
a read or write against a register whose flag is set returns an error,
which models an I/O failure of the concrete backend. -/

/-- State of the embedded controller as seen through the ReadByte and
WriteByte capabilities of an EC backend. -/
structure ECState where
  regs : Int → Nat
  readFail : Int → Bool
  writeFail : Int → Bool

/-- Pure register update used by a successful WriteByte: the byte value
is reduced mod 256 exactly as storing through a uint8_t does. -/
def ECState.setReg (s : ECState) (r : Int) (v : Nat) : ECState :=
  { s with regs := fun x => if x = r then v % 256 else s.regs x }

/-- ReadByte capability of the EC backend. -/
def ECReadByte (s : ECState) (r : Int) : Except (List String) Nat :=
  if s.readFail r then .error ["ReadByte()"] else .ok (s.regs r)

/-- WriteByte capability of the EC backend. -/
def ECWriteByte (s : ECState) (r : Int) (v : Nat) : Except (List String) ECState :=
  if s.writeFail r then .error ["WriteByte()"] else .ok (s.setReg r v)

/-! ## Register-write engine (service.c) -/

/-- ApplyRegisterWriteConfig from service.c: for mode Set the value is
written as given; otherwise the current register contents are read
first and the value is masked with them (And: value &= mask,
Or: value |= mask) before the write. -/
def ApplyRegisterWriteConfig (s : ECState) (register_ : Int) (value : Nat)
    (mode : RegisterWriteMode) : Except (List String) ECState :=
  match mode with
  | .set => ECWriteByte s register_ value
  | .and =>
    match ECReadByte s register_ with
    | .error e => .error e
    | .ok mask => ECWriteByte s register_ (value &&& mask)
  | .or =>
    match ECReadByte s register_ with
    | .error e => .error e
    | .ok mask => ECWriteByte s register_ (value ||| mask)
  | .unset =>
    match ECReadByte s register_ with
    | .error e => .error e
    | .ok _ => ECWriteByte s register_ value

/-- ApplyRegisterWriteConfgurations from service.c (source spelling kept):
iterate the register-write configurations in order and apply those for
which the service is initializing or whose WriteOccasion is
OnWriteFanSpeed; the first error aborts the iteration. -/
def ApplyRegisterWriteConfgurations (s : ECState)
    (cfgs : List RegisterWriteConfiguration) (initializing : Bool) :
    Except (List String) ECState :=
  match cfgs with
  | [] => .ok s
  | cfg :: rest =>
    if initializing || decide (cfg.WriteOccasion = RegisterWriteOccasion.onWriteFanSpeed) then
      match ApplyRegisterWriteConfig s cfg.Register cfg.Value cfg.WriteMode with
      | .error e => .error e
      | .ok s1 => ApplyRegisterWriteConfgurations s1 rest initializing
    else
      ApplyRegisterWriteConfgurations s rest initializing

/-- The byte actually stored by ApplyRegisterWriteConfig as a function of
the write mode, the configured value and the current register contents
(spec 4.6: Set writes the value, And writes current AND value, Or writes
current OR value). -/
def registerWriteValue (mode : RegisterWriteMode) (value cur : Nat) : Nat :=
  match mode with
  | .set => value
  | .and => value &&& cur
  | .or => value ||| cur
  | .unset => value

/-- Sequential application, in list order, of register-write
configurations: every configuration in the list is applied. -/
def applyConfigsInOrder (s : ECState)
    (cfgs : List RegisterWriteConfiguration) : Except (List String) ECState :=
  match cfgs with
  | [] => .ok s
  | cfg :: rest =>
    match ApplyRegisterWriteConfig s cfg.Register cfg.Value cfg.WriteMode with
    | .error e => .error e
    | .ok s1 => applyConfigsInOrder s1 rest

/-! ## Fan runtime state

The fan implementation (fan.c) is not among the sources; the fields and
the operations used by service.c and server.c are modelled from the spec
(sections 3 and 4.2). -/

/-- Fan mode: Auto, Fixed or Critical (spec section 3). -/
inductive FanMode where
  | auto
  | fixed
  | critical
deriving DecidableEq, Repr

/-- Modelled from the spec: runtime state of one fan (spec section 3);
fan.c is not among the sources.  Only the fields read or written by
service.c and server.c are modelled. -/
structure Fan where
  fanConfig : FanConfiguration
  mode : FanMode
  requestedSpeed : Rat
  targetSpeed : Rat
  isCritical : Bool
  pendingWrite : Option Nat
deriving DecidableEq, Repr

/-- Modelled from the spec: Fan_GetRequestedSpeed returns the requested
speed percentage; fan.c is not among the sources. -/
def Fan_GetRequestedSpeed (f : Fan) : Rat :=
  f.requestedSpeed

/-- Modelled from the spec (section 4.2): SetAutoSpeed sets mode = Auto;
fan.c is not among the sources. -/
def Fan_SetAutoSpeed (f : Fan) : Fan :=
  { f with mode := FanMode.auto }

/-- Modelled from the spec (section 4.2): SetFixedSpeed sets mode = Fixed
and requestedSpeed = clamp(percent, 0, 100); fan.c is not among the
sources. -/
def Fan_SetFixedSpeed (f : Fan) (percent : Rat) : Fan :=
  { f with
    mode := FanMode.fixed
    requestedSpeed := min (max percent 0) 100 }

/-- Modelled from the spec (section 4.2): ECFlush writes the pending raw
value through the EC backend and clears it; fan.c is not among the
sources.  The caller in server.c discards the returned error, so the
model keeps the previous state when the write fails. -/
def Fan_ECFlush (s : ECState) (f : Fan) : ECState × Fan :=
  match f.pendingWrite with
  | none => (s, f)
  | some v =>
    match ECWriteByte s f.fanConfig.WriteRegister v with
    | .ok s1 => (s1, { f with pendingWrite := none })
    | .error _ => (s, f)

/-- Modelled from the spec (section 4.2): ECReset writes the
FanSpeedResetValue if ResetRequired; fan.c is not among the sources. -/
def Fan_ECReset (s : ECState) (f : Fan) : Except (List String) ECState :=
  if f.fanConfig.ResetRequired.isTruthy then
    ECWriteByte s f.fanConfig.WriteRegister f.fanConfig.FanSpeedResetValue
  else
    .ok s

/-! ## EC reset engine (service.c) -/

/-- ResetRegisterWriteConfigs from service.c: every configuration whose
ResetRequired is truthy is applied with its ResetValue and
ResetWriteMode.  The local error variable is overwritten by the result
of each application (errors are only warned), so the function returns
the result of the last applied configuration, or success when none
applies. -/
def ResetRegisterWriteConfigs (s : ECState)
    (cfgs : List RegisterWriteConfiguration) : ECState × Option (List String) :=
  cfgs.foldl
    (fun acc cfg =>
      if cfg.ResetRequired.isTruthy then
        match ApplyRegisterWriteConfig acc.1 cfg.Register cfg.ResetValue cfg.ResetWriteMode with
        | .ok s1 => (s1, none)
        | .error e => (acc.1, some e)
      else acc)
    (s, none)

/-- One fan reset step inside a ResetEC try: a failing reset overwrites
the retained error, a successful one leaves it unchanged. -/
def resetFanStep (acc : ECState × Option (List String)) (f : Fan) :
    ECState × Option (List String) :=
  match Fan_ECReset acc.1 f with
  | .ok s1 => (s1, acc.2)
  | .error e => (acc.1, some e)

/-- One try of the ResetEC loop body: run ResetRegisterWriteConfigs
(its non-success result overwrites the retained error), then reset every
fan in order. -/
def resetECTry (cfgs : List RegisterWriteConfiguration) (fans : List Fan)
    (acc : ECState × Option (List String)) : ECState × Option (List String) :=
  let p := ResetRegisterWriteConfigs acc.1 cfgs
  let r1 : Option (List String) :=
    match p.2 with
    | some e => some e
    | none => acc.2
  fans.foldl resetFanStep (p.1, r1)

/-- ResetEC from service.c: the loop for (int tries = 3; tries; tries--)
runs the reset body exactly three times; the retained error r is
overwritten whenever an observed result is an error and is returned at
the end. -/
def ResetEC (s : ECState) (cfgs : List RegisterWriteConfiguration)
    (fans : List Fan) : ECState × Option (List String) :=
  resetECTry cfgs fans (resetECTry cfgs fans (resetECTry cfgs fans (s, none)))

/-- The results of running Fan_ECReset over a fan list in order,
together with the final EC state. -/
def fanResetsResults (s : ECState) : List Fan → ECState × List (Option (List String))
  | [] => (s, [])
  | f :: fs =>
    match Fan_ECReset s f with
    | .ok s1 =>
      let q := fanResetsResults s1 fs
      (q.1, none :: q.2)
    | .error e =>
      let q := fanResetsResults s fs
      (q.1, some e :: q.2)

/-- The per-try results that the ResetEC body observes: the result of
ResetRegisterWriteConfigs followed by the result of each Fan_ECReset,
in order.  Returns the successor state together with the result list. -/
def resetECTryResults (cfgs : List RegisterWriteConfiguration) (fans : List Fan)
    (s : ECState) : ECState × List (Option (List String)) :=
  let p := ResetRegisterWriteConfigs s cfgs
  let q := fanResetsResults p.1 fans
  (q.1, p.2 :: q.2)

/-- All results observed across the three tries of ResetEC. -/
def resetECResults (s : ECState) (cfgs : List RegisterWriteConfiguration)
    (fans : List Fan) : List (Option (List String)) :=
  let p1 := resetECTryResults cfgs fans s
  let p2 := resetECTryResults cfgs fans p1.1
  let p3 := resetECTryResults cfgs fans p2.1
  p1.2 ++ p2.2 ++ p3.2

/-- Retention of the last error of a result list: each error overwrites
the accumulator, successes leave it unchanged. -/
def lastError (init : Option (List String)) :
    List (Option (List String)) → Option (List String) :=
  List.foldl (fun acc e => match e with | some x => some x | none => acc) init

/-! ## Service loop failure handling (service.c, Service_Loop) -/

/-- Modelled from the spec: NBFC_EXIT_FAILURE from nbfc.h (not among the
sources); the spec only requires a non-zero exit status. -/
def NBFC_EXIT_FAILURE : Nat := 1

/-- Effect of one Service_Loop call on the failure counter: how long the
loop sleeps, the new failure count, and the exit code when the process
exits. -/
structure LoopEffect where
  sleptMs : Int
  failures : Nat
  exitCode : Option Nat
deriving DecidableEq, Repr

/-- Service_Loop from service.c, reduced to its failure-handling tail:
on success sleep EcPollInterval ms and reset the static failure counter;
on failure increment the counter, exit with NBFC_EXIT_FAILURE once it
reaches 100, and otherwise sleep 10 ms. -/
def Service_Loop_step (ecPollInterval : Int) (failures : Nat) (ok : Bool) :
    LoopEffect :=
  if ok then
    { sleptMs := ecPollInterval, failures := 0, exitCode := none }
  else if failures + 1 ≥ 100 then
    { sleptMs := 0, failures := failures + 1, exitCode := some NBFC_EXIT_FAILURE }
  else
    { sleptMs := 10, failures := failures + 1, exitCode := none }

/-- Iterated Service_Loop ticks: threads the static failure counter
through a sequence of tick outcomes (true = tick succeeded) and stops
once the process exits.  Returns the final failure counter and the exit
code, if any. -/
def Service_Loop_run (ecPollInterval : Int) (failures : Nat) :
    List Bool → Nat × Option Nat
  | [] => (failures, none)
  | ok :: rest =>
    let eff := Service_Loop_step ecPollInterval failures ok
    match eff.exitCode with
    | some c => (eff.failures, some c)
    | none => Service_Loop_run ecPollInterval eff.failures rest

/-! ## Server thread failure handling (server.c, Server_Run) -/

/-- Server_Max_Failures from server.c. -/
def Server_Max_Failures : Nat := 100

/-- The failure bookkeeping of one Server_Run iteration: a failing
Server_Loop call increments the counter and requests shutdown (quit = 1)
once the counter exceeds Server_Max_Failures; a successful call resets
the counter. -/
def Server_Run_step (failures : Nat) (ok : Bool) : Nat × Bool :=
  if ok then (0, false)
  else (failures + 1, failures + 1 > Server_Max_Failures)

/-- Iterated Server_Run loop over a sequence of Server_Loop outcomes
(true = iteration succeeded): returns the final failure counter and
whether the thread set the quit flag and returned. -/
def Server_Run_sim (failures : Nat) : List Bool → Nat × Bool
  | [] => (failures, false)
  | ok :: rest =>
    let st := Server_Run_step failures ok
    if st.2 then (st.1, true)
    else Server_Run_sim st.1 rest

/-! ## Service configuration (service_config.c) -/

/-- The clamping that ServiceConfig_Init applies to one TargetFanSpeeds
entry: first values greater than 100.0 are set to 100.0 (with a
warning), then negative values other than -1.0 are set to -1.0 (with a
warning). -/
def clampTargetFanSpeed (f : Rat) : Rat :=
  let f1 := if f > 100 then 100 else f
  if f1 < 0 ∧ f1 ≠ -1 then -1 else f1

/-- The TargetFanSpeeds array after the clamping loop of
ServiceConfig_Init (the parsing and field validation preceding it are
generated code outside the sources and are not modelled). -/
def ServiceConfig_Init_targetFanSpeeds (l : List Rat) : List Rat :=
  l.map clampTargetFanSpeed

/-- Service_WriteTargetFanSpeedsToConfig from service.c: the
TargetFanSpeeds array is resized to one entry per configured fan and
entry i becomes -1 when fan i is in Auto mode and the requested speed
otherwise.  The C code sizes the array by FanConfigurations.size and
fills it from Service_Fans; the two sizes are equal by the Service_Init
invariant, and the model fills one entry per fan. -/
def Service_WriteTargetFanSpeedsToConfig (sc : ServiceConfig)
    (fans : List Fan) : ServiceConfig :=
  { sc with
    TargetFanSpeeds :=
      fans.map (fun fan =>
        if fan.mode = FanMode.auto then -1 else Fan_GetRequestedSpeed fan) }

/-! ## EmbeddedControllerType string conversions (model_config.c) -/

/-- EmbeddedControllerType_FromString from model_config.c, including the
backwards-compatibility aliases accepted for older versions of
nbfc-linux. -/
def EmbeddedControllerType_FromString (s : String) : EmbeddedControllerType :=
  if s = "ec_sys" then .ecSysLinux
  else if s = "acpi_ec" then .ecSysLinuxACPI
  else if s = "dev_port" then .ecLinux
  else if s = "dummy" then .ecDummy
  else if s = "ec_sys_linux" then .ecSysLinux
  else if s = "ec_acpi" then .ecSysLinuxACPI
  else if s = "ec_linux" then .ecLinux
  else .unset

/-- EmbeddedControllerType_ToString from model_config.c; the C function
asserts (and returns NULL) on Unset, modelled as none. -/
def EmbeddedControllerType_ToString : EmbeddedControllerType → Option String
  | .ecSysLinux => some "ec_sys"
  | .ecSysLinuxACPI => some "acpi_ec"
  | .ecLinux => some "dev_port"
  | .ecDummy => some "dummy"
  | .unset => none

/-- TemperatureAlgorithmType_ToString from model_config.c; the C function
asserts (and returns NULL) on Unset, modelled as none. -/
def TemperatureAlgorithmType_ToString : TemperatureAlgorithmType → Option String
  | .average => some "Average"
  | .min => some "Min"
  | .max => some "Max"
  | .unset => none

/-! ## JSON values

The nx_json values relevant to the control server and the config
writer.  Numbers keep the distinction the tokenizer makes between
NX_JSON_INTEGER and NX_JSON_DOUBLE; doubles are modelled as Rat. -/

/-- A JSON value as handled by the server command parser. -/
inductive JVal where
  | jint : Int → JVal
  | jdbl : Rat → JVal
  | jstr : String → JVal
  | jbool : Bool → JVal
  | jnull : JVal
  | jarr : List JVal → JVal
  | jobj : List (String × JVal) → JVal
deriving Repr

/-- The JSON object that ServiceConfig_Write serializes, as an ordered
list of key-value pairs: SelectedConfigId when present, the canonical
EmbeddedControllerType string when the type is set, TargetFanSpeeds when
non-empty, and FanTemperatureSources when non-empty. -/
def ServiceConfig_Write (c : ServiceConfig) : List (String × JVal) :=
  (match c.SelectedConfigId with
   | some id => [("SelectedConfigId", JVal.jstr id)]
   | none => [])
  ++ (match EmbeddedControllerType_ToString c.EmbeddedControllerType with
   | some s => [("EmbeddedControllerType", JVal.jstr s)]
   | none => [])
  ++ (if c.TargetFanSpeeds = [] then []
      else [("TargetFanSpeeds", JVal.jarr (c.TargetFanSpeeds.map JVal.jdbl))])
  ++ (if c.FanTemperatureSources = [] then []
      else [("FanTemperatureSources", JVal.jarr (c.FanTemperatureSources.map
        (fun ftsc => JVal.jobj (
          [("FanIndex", JVal.jint ftsc.FanIndex),
           ("TemperatureAlgorithmType",
             JVal.jstr ((TemperatureAlgorithmType_ToString ftsc.TemperatureAlgorithmType).getD ""))]
          ++ (if ftsc.Sensors = [] then []
              else [("Sensors", JVal.jarr (ftsc.Sensors.map JVal.jstr))])))))])

/-! ## Control server: set-fan-speed command (server.c) -/

/-- The argument-parsing loop of Server_Command_Set_Fan: iterate the
key-value pairs of the request object, carrying the fan accumulator
(initially -1 = all fans) and the speed accumulator (initially the
sentinel -2 = missing; -1 = auto). -/
def setFanParseLoop (fancount : Int) :
    List (String × JVal) → Int → Rat → Except (List String) (Int × Rat)
  | [], fan, speed => .ok (fan, speed)
  | (k, v) :: rest, fan, speed =>
    if k = "Command" then
      setFanParseLoop fancount rest fan speed
    else if k = "Fan" then
      match v with
      | .jint i =>
        if i < 0 then .error ["Fan: Cannot be negative"]
        else if i ≥ fancount then .error ["Fan: No such fan available"]
        else setFanParseLoop fancount rest i speed
      | _ => .error ["Fan: Not an integer"]
    else if k = "Speed" then
      match v with
      | .jstr s =>
        if s = "auto" then setFanParseLoop fancount rest fan (-1)
        else .error ["Speed: Invalid type. Either float or 'auto'"]
      | .jdbl d =>
        if d < 0 ∨ d > 100 then .error ["Speed: Invalid value"]
        else setFanParseLoop fancount rest fan d
      | .jint i =>
        if (i : Rat) < 0 ∨ (i : Rat) > 100 then .error ["Speed: Invalid value"]
        else setFanParseLoop fancount rest fan (i : Rat)
      | _ => .error ["Speed: Invalid type. Either float or 'auto'"]
    else
      .error ["Unknown arguments"]

/-- Application loop of Server_Command_Set_Fan: for every fan index i
selected by the fan argument (-1 = all), set auto or fixed speed and,
unless read-only, flush the pending EC write (whose error the C code
discards). -/
def setFanApply (readOnly : Bool) (fanArg : Int) (speed : Rat) :
    List Fan → Int → ECState → List Fan × ECState
  | [], _, s => ([], s)
  | f :: rest, i, s =>
    if fanArg = -1 ∨ fanArg = i then
      let f1 := if speed = -1 then Fan_SetAutoSpeed f else Fan_SetFixedSpeed f speed
      let p := if readOnly then (s, f1) else Fan_ECFlush s f1
      let q := setFanApply readOnly fanArg speed rest (i + 1) p.1
      (p.2 :: q.1, q.2)
    else
      let q := setFanApply readOnly fanArg speed rest (i + 1) s
      (f :: q.1, q.2)

/-- Result of Server_Command_Set_Fan: the reply (ok or an error chain),
the fan array, the EC state, and the TargetFanSpeeds that were persisted
by Service_WriteTargetFanSpeedsToConfig (none when nothing was
persisted). -/
structure SetFanResult where
  reply : Except (List String) Unit
  fans : List Fan
  ec : ECState
  persisted : Option (List Rat)

/-- Server_Command_Set_Fan from server.c: validate all arguments in the
iteration over the request object; on any validation error reply with
that error, leaving every fan, the EC and the persisted config
untouched.  Otherwise require Speed, apply the command to the selected
fans, persist the target fan speeds and reply with Status OK. -/
def Server_Command_Set_Fan (readOnly : Bool) (fancount : Int)
    (fans : List Fan) (s : ECState) (msg : List (String × JVal)) : SetFanResult :=
  match setFanParseLoop fancount msg (-1) (-2) with
  | .error e => { reply := .error e, fans := fans, ec := s, persisted := none }
  | .ok (fanArg, speed) =>
    if speed = -2 then
      { reply := .error ["Missing argument: Speed"], fans := fans, ec := s,
        persisted := none }
    else
      let p := setFanApply readOnly fanArg speed fans 0 s
      let speeds := (Service_WriteTargetFanSpeedsToConfig
        { SelectedConfigId := none, EmbeddedControllerType := .unset,
          TargetFanSpeeds := [], FanTemperatureSources := [] } p.1).TargetFanSpeeds
      { reply := .ok (), fans := p.1, ec := p.2, persisted := some speeds }

/-! ## Model-config validation (model_config.c)

ModelConfig_Validate mutates the configuration in place (defaults,
forced reset values, threshold substitution); the embedding returns the
updated configuration.  Warnings (err chains that the C code prints via
e_warn and then discards by setting e back to NULL) are collected in a
list and returned alongside the result, so that the warn-only branches
of the source remain visible in the model.  Error chains are
[rendered trace, message], matching the err label of the C function. -/

/-- Default temperature thresholds table from model_config.c. -/
def Config_DefaultTemperatureThresholds : List TemperatureThreshold :=
  [⟨60, 0, 0⟩, ⟨63, 48, 10⟩, ⟨66, 55, 20⟩, ⟨68, 59, 50⟩, ⟨71, 63, 70⟩,
   ⟨75, 67, 100⟩]

/-- Default legacy temperature thresholds table from model_config.c. -/
def Config_DefaultLegacyTemperatureThresholds : List TemperatureThreshold :=
  [⟨0, 0, 0⟩, ⟨60, 48, 10⟩, ⟨63, 55, 20⟩, ⟨66, 59, 50⟩, ⟨68, 63, 70⟩,
   ⟨71, 67, 100⟩]

/-- Rendered trace for errors inside FanConfigurations[i]. -/
def traceFan (i : Nat) : String :=
  "FanConfigurations[" ++ toString i ++ "]"

/-- Rendered trace for errors inside TemperatureThresholds[j] of
FanConfigurations[i]. -/
def traceFanThresh (i j : Nat) : String :=
  traceFan i ++ ": TemperatureThresholds[" ++ toString j ++ "]"

/-- Rendered trace for errors inside FanSpeedPercentageOverrides[j] of
FanConfigurations[i]. -/
def traceFanOverride (i j : Nat) : String :=
  traceFan i ++ ": FanSpeedPercentageOverrides[" ++ toString j ++ "]"

/-- Rendered trace for errors inside RegisterWriteConfigurations[i]. -/
def traceRWC (i : Nat) : String :=
  "RegisterWriteConfigurations[" ++ toString i ++ "]"

/-- Modelled from the spec: ModelConfig_ValidateFields is generated code
not among the sources; per spec section 3 EcPollInterval is a positive
integer. -/
def ModelConfig_FieldsOk (c : ModelConfig) : Bool :=
  decide (c.EcPollInterval > 0)

/-- Modelled from the spec: RegisterWriteConfiguration_ValidateFields is
generated code not among the sources; per spec section 3 Value and
ResetValue are u8. -/
def RegisterWriteConfiguration_FieldsOk (r : RegisterWriteConfiguration) : Bool :=
  decide (r.Value ≤ 255) && decide (r.ResetValue ≤ 255)

/-- Modelled from the spec: FanConfiguration_ValidateFields is generated
code not among the sources; per spec section 3 the speed values are in
0..65535, the read-side pair only when independent read values are
enabled. -/
def FanConfiguration_FieldsOk (f : FanConfiguration) : Bool :=
  decide (0 ≤ f.MinSpeedValue) && decide (f.MinSpeedValue ≤ 65535) &&
  decide (0 ≤ f.MaxSpeedValue) && decide (f.MaxSpeedValue ≤ 65535) &&
  (!f.IndependentReadMinMaxValues.isTruthy ||
    (decide (0 ≤ f.MinSpeedValueRead) && decide (f.MinSpeedValueRead ≤ 65535) &&
     decide (0 ≤ f.MaxSpeedValueRead) && decide (f.MaxSpeedValueRead ≤ 65535)))

/-- Modelled from the spec: TemperatureThreshold_ValidateFields is
generated code not among the sources; per spec section 3 FanSpeed is a
percentage in 0..100. -/
def TemperatureThreshold_FieldsOk (t : TemperatureThreshold) : Bool :=
  decide (0 ≤ t.FanSpeed) && decide (t.FanSpeed ≤ 100)

/-- Modelled from the spec: FanSpeedPercentageOverride_ValidateFields is
generated code not among the sources; per spec section 3 the percentage
is in 0..100 and the raw value in 0..65535. -/
def FanSpeedPercentageOverride_FieldsOk (o : FanSpeedPercentageOverride) : Bool :=
  decide (0 ≤ o.FanSpeedPercentage) && decide (o.FanSpeedPercentage ≤ 100) &&
  decide (o.FanSpeedValue ≤ 65535)

/-- The in-place mutation ModelConfig_Validate applies to a
register-write configuration before validating it: ResetValue is forced
to 0 unless ResetRequired is true. -/
def forceRegReset (r : RegisterWriteConfiguration) : RegisterWriteConfiguration :=
  if r.ResetRequired = Boolean.bFalse ∨ r.ResetRequired = Boolean.bUnset then
    { r with ResetValue := 0 }
  else r

/-- The in-place mutation ModelConfig_Validate applies to a fan
configuration before validating it: a default FanDisplayName is
substituted when missing, and FanSpeedResetValue is forced to 0 unless
ResetRequired is true. -/
def fanForValidation (i : Nat) (f : FanConfiguration) : FanConfiguration :=
  let name := match f.FanDisplayName with
    | none => "Fan #" ++ toString i
    | some n => n
  let resetVal :=
    if f.ResetRequired = Boolean.bFalse ∨ f.ResetRequired = Boolean.bUnset then 0
    else f.FanSpeedResetValue
  { f with FanDisplayName := some name, FanSpeedResetValue := resetVal }

/-- Whether another entry of the threshold table (at an index other
than j) has the same UpThreshold: the duplicate check of
ModelConfig_Validate compares every pair of distinct entries. -/
def hasOtherSameUp (all : List TemperatureThreshold) (j : Nat)
    (t : TemperatureThreshold) : Bool :=
  all.enum.any (fun p =>
    decide (p.1 ≠ j) && decide (p.2.UpThreshold = t.UpThreshold))

/-- The loop of ModelConfig_Validate over the (possibly substituted)
threshold table of FanConfigurations[i]: field validation and the
UpThreshold/DownThreshold and duplicate checks are errors, while an
UpThreshold above CriticalTemperature only appends a warning.  On
success the collected warnings are returned. -/
def validateThresholdItems (crit : Int) (i : Nat)
    (all : List TemperatureThreshold) :
    Nat → List TemperatureThreshold → Except (List String) (List (List String))
  | _, [] => .ok []
  | j, t :: ts =>
    if ¬ TemperatureThreshold_FieldsOk t then
      .error [traceFanThresh i j, "FanSpeed must be within [0, 100]"]
    else if t.UpThreshold < t.DownThreshold then
      .error [traceFanThresh i j, "UpThreshold cannot be less than DownThreshold"]
    else
      let ws : List (List String) :=
        if t.UpThreshold > crit then
          [[traceFanThresh i j,
            "UpThreshold cannot be greater than CriticalTemperature"]]
        else []
      if hasOtherSameUp all j t then
        .error [traceFanThresh i j, "Duplicate UpThreshold"]
      else
        match validateThresholdItems crit i all (j + 1) ts with
        | .error e => .error e
        | .ok ws1 => .ok (ws ++ ws1)

/-- The loop of ModelConfig_Validate over the speed overrides of
FanConfigurations[i]. -/
def validateOverrides (i : Nat) :
    Nat → List FanSpeedPercentageOverride → Except (List String) Unit
  | _, [] => .ok ()
  | j, o :: os =>
    if ¬ FanSpeedPercentageOverride_FieldsOk o then
      .error [traceFanOverride i j, "Fields out of range"]
    else validateOverrides i (j + 1) os

/-- The body of ModelConfig_Validate for FanConfigurations[i]: apply the
in-place defaults, validate the fields, the min/max cross-field checks
and the overrides, substitute the default threshold table (legacy or
normal) when the configured one is empty, validate the thresholds, and
append a warning when no threshold has FanSpeed 0 or none has
FanSpeed 100. -/
def validateFan (legacy : Bool) (crit : Int) (i : Nat) (f : FanConfiguration) :
    Except (List String) (FanConfiguration × List (List String)) :=
  let f1 := fanForValidation i f
  if ¬ FanConfiguration_FieldsOk f1 then
    .error [traceFan i, "Speed values out of range"]
  else if f1.MinSpeedValue = f1.MaxSpeedValue then
    .error [traceFan i, "MinSpeedValue and MaxSpeedValue cannot be the same"]
  else if f1.IndependentReadMinMaxValues.isTruthy ∧
      f1.MinSpeedValueRead = f1.MaxSpeedValueRead then
    .error [traceFan i, "MinSpeedValueRead and MaxSpeedValueRead cannot be the same"]
  else
    match validateOverrides i 0 f1.FanSpeedPercentageOverrides with
    | .error e => .error e
    | .ok _ =>
      let ts :=
        if f1.TemperatureThresholds = [] then
          if legacy then Config_DefaultLegacyTemperatureThresholds
          else Config_DefaultTemperatureThresholds
        else f1.TemperatureThresholds
      match validateThresholdItems crit i ts 0 ts with
      | .error e => .error e
      | .ok ws =>
        let ws0 :=
          if ts.all (fun t => decide (t.FanSpeed ≠ 0)) then
            [[traceFan i, "No threshold with FanSpeed == 0 found"]]
          else []
        let ws100 :=
          if ts.all (fun t => decide (t.FanSpeed ≠ 100)) then
            [[traceFan i, "No threshold with FanSpeed == 100 found"]]
          else []
        .ok ({ f1 with TemperatureThresholds := ts }, ws ++ ws0 ++ ws100)

/-- The loop of ModelConfig_Validate over all fan configurations. -/
def validateFans (legacy : Bool) (crit : Int) :
    Nat → List FanConfiguration →
    Except (List String) (List FanConfiguration × List (List String))
  | _, [] => .ok ([], [])
  | i, f :: fs =>
    match validateFan legacy crit i f with
    | .error e => .error e
    | .ok (f1, ws) =>
      match validateFans legacy crit (i + 1) fs with
      | .error e => .error e
      | .ok (fs1, ws1) => .ok (f1 :: fs1, ws ++ ws1)

/-- The loop of ModelConfig_Validate over the register-write
configurations. -/
def validateRegCfgs :
    Nat → List RegisterWriteConfiguration →
    Except (List String) (List RegisterWriteConfiguration)
  | _, [] => .ok []
  | j, r :: rs =>
    let r1 := forceRegReset r
    if ¬ RegisterWriteConfiguration_FieldsOk r1 then
      .error [traceRWC j, "Value out of range"]
    else
      match validateRegCfgs (j + 1) rs with
      | .error e => .error e
      | .ok rs1 => .ok (r1 :: rs1)

/-- ModelConfig_Validate from model_config.c: validate the top-level
fields, then every register-write configuration, then every fan
configuration; returns the updated configuration and the collected
warnings, or the first error chain. -/
def ModelConfig_Validate (c : ModelConfig) :
    Except (List String) (ModelConfig × List (List String)) :=
  if ¬ ModelConfig_FieldsOk c then
    .error ["", "EcPollInterval must be positive"]
  else
    match validateRegCfgs 0 c.RegisterWriteConfigurations with
    | .error e => .error e
    | .ok rwcs =>
      match validateFans c.LegacyTemperatureThresholdsBehaviour
          c.CriticalTemperature 0 c.FanConfigurations with
      | .error e => .error e
      | .ok (fans, ws) =>
        let c1 := { c with RegisterWriteConfigurations := rwcs, FanConfigurations := fans }
        .ok (c1, ws)

/-! ## Acceptance predicate

A Boolean restatement, following the words of the spec, of exactly the
conditions under which ModelConfig_Validate succeeds.  It contains the
hard checks only: it makes no reference to CriticalTemperature and does
not require thresholds with FanSpeed 0 or 100, since those conditions
only produce warnings. -/

/-- Acceptance of one (possibly substituted) threshold table entry list:
fields in range, UpThreshold at least DownThreshold, no duplicate
UpThreshold. -/
def thresholdItemsAccepted (all : List TemperatureThreshold) :
    Nat → List TemperatureThreshold → Bool
  | _, [] => true
  | j, t :: ts =>
    TemperatureThreshold_FieldsOk t &&
    decide (t.DownThreshold ≤ t.UpThreshold) &&
    !hasOtherSameUp all j t &&
    thresholdItemsAccepted all (j + 1) ts

/-- Acceptance of one fan configuration: field checks, distinct min and
max speed values (also on the read side when independent), override
field checks and threshold acceptance of the substituted table. -/
def fanAccepted (legacy : Bool) (i : Nat) (f : FanConfiguration) : Bool :=
  let f1 := fanForValidation i f
  let ts :=
    if f1.TemperatureThresholds = [] then
      if legacy then Config_DefaultLegacyTemperatureThresholds
      else Config_DefaultTemperatureThresholds
    else f1.TemperatureThresholds
  FanConfiguration_FieldsOk f1 &&
  decide (f1.MinSpeedValue ≠ f1.MaxSpeedValue) &&
  !(f1.IndependentReadMinMaxValues.isTruthy &&
    decide (f1.MinSpeedValueRead = f1.MaxSpeedValueRead)) &&
  f1.FanSpeedPercentageOverrides.all FanSpeedPercentageOverride_FieldsOk &&
  thresholdItemsAccepted ts 0 ts

/-- Indexed acceptance of the fan configuration list. -/
def fansAccepted (legacy : Bool) : Nat → List FanConfiguration → Bool
  | _, [] => true
  | i, f :: fs => fanAccepted legacy i f && fansAccepted legacy (i + 1) fs

/-- Acceptance of a whole model configuration: exactly the error
conditions of ModelConfig_Validate, with no reference to
CriticalTemperature and no requirement on thresholds with FanSpeed 0
or 100. -/
def ModelConfig_Accepted (c : ModelConfig) : Bool :=
  ModelConfig_FieldsOk c &&
  (c.RegisterWriteConfigurations.all fun r =>
    RegisterWriteConfiguration_FieldsOk (forceRegReset r)) &&
  fansAccepted c.LegacyTemperatureThresholdsBehaviour 0 c.FanConfigurations

/-- Whether an Except value is a success. -/
def exceptIsOk {ε α : Type} : Except ε α → Bool
  | .ok _ => true
  | .error _ => false

/-! ## Theorems -/

lemma Service_Loop_step_true (pi : Int) (f : Nat) :
    Service_Loop_step pi f true = { sleptMs := pi, failures := 0, exitCode := none } := rfl

lemma Service_Loop_step_false_lt (pi : Int) (f : Nat) (h : f + 1 < 100) :
    Service_Loop_step pi f false =
      { sleptMs := 10, failures := f + 1, exitCode := none } := by
  unfold Service_Loop_step
  rw [if_neg (by simp), if_neg (by omega)]

lemma Service_Loop_step_false_ge (pi : Int) (f : Nat) (h : f + 1 ≥ 100) :
    Service_Loop_step pi f false =
      { sleptMs := 0, failures := f + 1, exitCode := some NBFC_EXIT_FAILURE } := by
  unfold Service_Loop_step
  rw [if_neg (by simp), if_pos h]

lemma Service_Loop_run_cons_false_lt (pi : Int) (f : Nat) (rest : List Bool)
    (h : f + 1 < 100) :
    Service_Loop_run pi f (false :: rest) = Service_Loop_run pi (f + 1) rest := by
  simp [Service_Loop_run, Service_Loop_step_false_lt pi f h]

lemma Service_Loop_run_cons_false_ge (pi : Int) (f : Nat) (rest : List Bool)
    (h : f + 1 ≥ 100) :
    Service_Loop_run pi f (false :: rest) = (f + 1, some NBFC_EXIT_FAILURE) := by
  simp [Service_Loop_run, Service_Loop_step_false_ge pi f h]

lemma Service_Loop_run_replicate_exit (k : Nat) :
    ∀ (pi : Int) (f : Nat), 100 ≤ f + k → 1 ≤ k →
    (Service_Loop_run pi f (List.replicate k false)).2 = some NBFC_EXIT_FAILURE := by
  induction k with
  | zero => intro pi f h hk; omega
  | succ n ih =>
    intro pi f h _
    rw [List.replicate_succ]
    by_cases hf : f + 1 ≥ 100
    · rw [Service_Loop_run_cons_false_ge pi f _ hf]
    · rw [Service_Loop_run_cons_false_lt pi f _ (by omega)]
      exact ih pi (f + 1) (by omega) (by omega)

/-- C2: a successful Service_Loop tick sleeps EcPollInterval ms and
resets the consecutive-failure counter to 0; a failed tick that does not
reach the limit sleeps 10 ms and increments the counter; a failed tick
that reaches 100 consecutive failures exits the process with the
non-zero code NBFC_EXIT_FAILURE, and 100 consecutive failing ticks
suffice to terminate the daemon. -/
theorem Service_Loop_failure_policy :
    (∀ (pi : Int) (f : Nat), Service_Loop_step pi f true =
      { sleptMs := pi, failures := 0, exitCode := none }) ∧
    (∀ (pi : Int) (f : Nat), f + 1 < 100 → Service_Loop_step pi f false =
      { sleptMs := 10, failures := f + 1, exitCode := none }) ∧
    (∀ (pi : Int) (f : Nat), f + 1 ≥ 100 →
      (Service_Loop_step pi f false).exitCode = some NBFC_EXIT_FAILURE ∧
      NBFC_EXIT_FAILURE ≠ 0) ∧
    (∀ pi : Int,
      (Service_Loop_run pi 0 (List.replicate 100 false)).2 = some NBFC_EXIT_FAILURE) := by
  refine ⟨fun pi f => rfl, fun pi f h => ?_, fun pi f h => ?_, fun pi => ?_⟩
  · unfold Service_Loop_step
    rw [if_neg (by simp), if_neg (by omega)]
  · refine ⟨?_, by decide⟩
    unfold Service_Loop_step
    rw [if_neg (by simp), if_pos h]
  · exact Service_Loop_run_replicate_exit 100 pi 0 (by omega) (by omega)

/-- Closed instance of the Service_Loop failure policy with every
hypothesis discharged at concrete inputs. -/
theorem Service_Loop_failure_policy_witness :
    (Service_Loop_step 3000 5 false =
      { sleptMs := 10, failures := 6, exitCode := none }) ∧
    ((Service_Loop_step 3000 99 false).exitCode = some NBFC_EXIT_FAILURE) ∧
    ((Service_Loop_run 3000 0 (List.replicate 100 false)).2 = some NBFC_EXIT_FAILURE) :=
  ⟨Service_Loop_failure_policy.2.1 3000 5 (by decide),
   (Service_Loop_failure_policy.2.2.1 3000 99 (by decide)).1,
   Service_Loop_failure_policy.2.2.2 3000⟩

lemma Server_Run_sim_cons_true (f : Nat) (rest : List Bool) :
    Server_Run_sim f (true :: rest) = Server_Run_sim 0 rest := by
  simp [Server_Run_sim, Server_Run_step]

lemma Server_Run_sim_cons_false_le (f : Nat) (rest : List Bool)
    (h : f + 1 ≤ Server_Max_Failures) :
    Server_Run_sim f (false :: rest) = Server_Run_sim (f + 1) rest := by
  have h1 : ¬ (f + 1 > Server_Max_Failures) := by omega
  simp [Server_Run_sim, Server_Run_step, h1]

lemma Server_Run_sim_cons_false_gt (f : Nat) (rest : List Bool)
    (h : f + 1 > Server_Max_Failures) :
    Server_Run_sim f (false :: rest) = (f + 1, true) := by
  simp [Server_Run_sim, Server_Run_step, h]

lemma Server_Run_sim_replicate_no_quit (k : Nat) :
    ∀ f : Nat, f + k ≤ 100 →
    Server_Run_sim f (List.replicate k false) = (f + k, false) := by
  induction k with
  | zero => intro f h; simp [Server_Run_sim]
  | succ n ih =>
    intro f h
    rw [List.replicate_succ]
    rw [Server_Run_sim_cons_false_le f _ (by unfold Server_Max_Failures; omega)]
    rw [ih (f + 1) (by omega)]
    congr 1
    omega

lemma Server_Run_sim_exceed_quit (k : Nat) :
    ∀ (f : Nat) (os : List Bool), f ≤ 100 → 100 < f + k →
    Server_Run_sim f (List.replicate k false ++ os) = (101, true) := by
  induction k with
  | zero => intro f os h1 h2; omega
  | succ n ih =>
    intro f os h1 h2
    rw [List.replicate_succ, List.cons_append]
    by_cases hf : f + 1 > Server_Max_Failures
    · rw [Server_Run_sim_cons_false_gt f _ hf]
      unfold Server_Max_Failures at hf
      have : f = 100 := by omega
      rw [this]
    · rw [Server_Run_sim_cons_false_le f _ (by omega)]
      unfold Server_Max_Failures at hf
      exact ih (f + 1) os (by omega) (by omega)

/-- C8: each successful Server_Run iteration resets the
consecutive-failure counter to zero; the server thread tolerates up to
Server_Max_Failures = 100 consecutive Server_Loop failures without
requesting shutdown, and once this count is exceeded (at the 101st
consecutive failure) it sets the quit flag and returns, regardless of
any further outcomes. -/
theorem Server_Run_failure_policy :
    (∀ (f : Nat) (os : List Bool),
      Server_Run_sim f (true :: os) = Server_Run_sim 0 os) ∧
    (∀ k : Nat, k ≤ Server_Max_Failures →
      Server_Run_sim 0 (List.replicate k false) = (k, false)) ∧
    (∀ os : List Bool,
      Server_Run_sim 0 (List.replicate (Server_Max_Failures + 1) false ++ os) =
        (Server_Max_Failures + 1, true)) := by
  refine ⟨fun f os => Server_Run_sim_cons_true f os, fun k hk => ?_, fun os => ?_⟩
  · have := Server_Run_sim_replicate_no_quit k 0 (by unfold Server_Max_Failures at hk; omega)
    simpa using this
  · exact Server_Run_sim_exceed_quit 101 0 os (by omega) (by omega)

/-- Closed instance of the Server_Run failure policy with every
hypothesis discharged at concrete inputs. -/
theorem Server_Run_failure_policy_witness :
    (Server_Run_sim 7 [true, false] = Server_Run_sim 0 [false]) ∧
    (Server_Run_sim 0 (List.replicate 100 false) = (100, false)) ∧
    (Server_Run_sim 0 (List.replicate 101 false ++ [true]) = (101, true)) :=
  ⟨Server_Run_failure_policy.1 7 [false],
   Server_Run_failure_policy.2.1 100 (by decide),
   Server_Run_failure_policy.2.2 [true]⟩

lemma clampTargetFanSpeed_valid (q : Rat) :
    clampTargetFanSpeed q = -1 ∨
      (0 ≤ clampTargetFanSpeed q ∧ clampTargetFanSpeed q ≤ 100) := by
  simp only [clampTargetFanSpeed]
  split_ifs with h1 h2 h3
  · exact Or.inl rfl
  · right; constructor <;> norm_num
  · exact Or.inl rfl
  · push_neg at h3
    rcases lt_or_ge q 0 with h | h
    · exact Or.inl (h3 h)
    · exact Or.inr ⟨h, le_of_not_lt h1⟩

lemma clampTargetFanSpeed_gt (q : Rat) (h : q > 100) :
    clampTargetFanSpeed q = 100 := by
  simp only [clampTargetFanSpeed, if_pos h]
  norm_num

lemma clampTargetFanSpeed_neg (q : Rat) (h : q < 0) (h1 : q ≠ -1) :
    clampTargetFanSpeed q = -1 := by
  have h2 : ¬ (q > 100) := by linarith
  simp only [clampTargetFanSpeed, if_neg h2]
  rw [if_pos ⟨h, h1⟩]

lemma clampTargetFanSpeed_id (q : Rat) (h : q = -1 ∨ (0 ≤ q ∧ q ≤ 100)) :
    clampTargetFanSpeed q = q := by
  rcases h with h | ⟨h0, h100⟩
  · subst h
    simp only [clampTargetFanSpeed]
    rw [if_neg (show ¬ ((-1 : Rat) > 100) by norm_num)]
    rw [if_neg (by simp)]
  · have h2 : ¬ (q > 100) := not_lt.mpr h100
    simp only [clampTargetFanSpeed, if_neg h2]
    rw [if_neg (by rintro ⟨hlt, -⟩; exact absurd h0 (not_le.mpr hlt))]

/-- C4: after the clamping loop of ServiceConfig_Init, every
TargetFanSpeeds entry is either -1 or lies in [0, 100]; an entry
greater than 100 becomes 100, a negative entry other than -1 becomes
-1 (the auto sentinel, inside the valid set), and entries already in
the valid set are unchanged. -/
theorem ServiceConfig_Init_targetFanSpeeds_clamped :
    (∀ (l : List Rat) (x : Rat), x ∈ ServiceConfig_Init_targetFanSpeeds l →
      x = -1 ∨ (0 ≤ x ∧ x ≤ 100)) ∧
    (∀ (l : List Rat) (i : Nat) (q : Rat), l[i]? = some q → q > 100 →
      (ServiceConfig_Init_targetFanSpeeds l)[i]? = some 100) ∧
    (∀ (l : List Rat) (i : Nat) (q : Rat), l[i]? = some q → q < 0 → q ≠ -1 →
      (ServiceConfig_Init_targetFanSpeeds l)[i]? = some (-1)) ∧
    (∀ (l : List Rat) (i : Nat) (q : Rat), l[i]? = some q →
      (q = -1 ∨ (0 ≤ q ∧ q ≤ 100)) →
      (ServiceConfig_Init_targetFanSpeeds l)[i]? = some q) := by
  refine ⟨fun l x hx => ?_, fun l i q hq h => ?_, fun l i q hq h h1 => ?_,
    fun l i q hq h => ?_⟩
  · rcases List.mem_map.mp hx with ⟨q, -, rfl⟩
    exact clampTargetFanSpeed_valid q
  · simp [ServiceConfig_Init_targetFanSpeeds, List.getElem?_map, hq,
      clampTargetFanSpeed_gt q h]
  · simp [ServiceConfig_Init_targetFanSpeeds, List.getElem?_map, hq,
      clampTargetFanSpeed_neg q h h1]
  · simp [ServiceConfig_Init_targetFanSpeeds, List.getElem?_map, hq,
      clampTargetFanSpeed_id q h]

/-- Closed instance of the TargetFanSpeeds clamping with every
hypothesis discharged at concrete inputs. -/
theorem ServiceConfig_Init_targetFanSpeeds_clamped_witness :
    ((150 : Rat) ∈ ServiceConfig_Init_targetFanSpeeds [150, -5, 50, -1] →
      (150 : Rat) = -1 ∨ (0 ≤ (150 : Rat) ∧ (150 : Rat) ≤ 100)) ∧
    ((ServiceConfig_Init_targetFanSpeeds [150, -5, 50, -1])[0]? = some (100 : Rat)) ∧
    ((ServiceConfig_Init_targetFanSpeeds [150, -5, 50, -1])[1]? = some ((-1 : Rat))) ∧
    ((ServiceConfig_Init_targetFanSpeeds [150, -5, 50, -1])[2]? = some ((50 : Rat))) :=
  ⟨fun hx => ServiceConfig_Init_targetFanSpeeds_clamped.1 [150, -5, 50, -1] 150 hx,
   ServiceConfig_Init_targetFanSpeeds_clamped.2.1 [150, -5, 50, -1] 0 150
     (by decide) (by norm_num),
   ServiceConfig_Init_targetFanSpeeds_clamped.2.2.1 [150, -5, 50, -1] 1 (-5)
     (by decide) (by norm_num) (by norm_num),
   ServiceConfig_Init_targetFanSpeeds_clamped.2.2.2 [150, -5, 50, -1] 2 50
     (by decide) (Or.inr (by norm_num))⟩

/-- C5: Service_WriteTargetFanSpeedsToConfig stores one entry per
configured fan (the fan array and the fan-configuration array have the
same length by the Service_Init invariant), and entry i is -1 when fan
i is in Auto mode and the requested speed of fan i otherwise. -/
theorem Service_WriteTargetFanSpeedsToConfig_spec :
    ∀ (sc : ServiceConfig) (mc : ModelConfig) (fans : List Fan),
    fans.length = mc.FanConfigurations.length →
    ((Service_WriteTargetFanSpeedsToConfig sc fans).TargetFanSpeeds.length =
      mc.FanConfigurations.length) ∧
    (∀ i : Nat,
      (Service_WriteTargetFanSpeedsToConfig sc fans).TargetFanSpeeds[i]? =
        (fans[i]?).map (fun f =>
          if f.mode = FanMode.auto then -1 else Fan_GetRequestedSpeed f)) := by
  intro sc mc fans h
  constructor
  · simp [Service_WriteTargetFanSpeedsToConfig, h]
  · intro i
    simp [Service_WriteTargetFanSpeedsToConfig, List.getElem?_map]

/-- A plain fan configuration used by concrete instances. -/
def fcPlain : FanConfiguration :=
  { FanDisplayName := some "Fan"
    ReadRegister := 0
    WriteRegister := 0
    MinSpeedValue := 0
    MaxSpeedValue := 255
    IndependentReadMinMaxValues := Boolean.bFalse
    MinSpeedValueRead := 0
    MaxSpeedValueRead := 0
    ResetRequired := Boolean.bFalse
    FanSpeedResetValue := 0
    TemperatureThresholds := []
    FanSpeedPercentageOverrides := [] }

/-- A plain model configuration with two fans used by concrete
instances. -/
def mcTwoFans : ModelConfig :=
  { NotebookModel := some "Test"
    Author := none
    EcPollInterval := 3000
    CriticalTemperature := 75
    ReadWriteWords := false
    LegacyTemperatureThresholdsBehaviour := false
    FanConfigurations := [fcPlain, fcPlain]
    RegisterWriteConfigurations := [] }

/-- An empty service configuration used by concrete instances. -/
def scEmpty : ServiceConfig :=
  { SelectedConfigId := some "Test"
    EmbeddedControllerType := EmbeddedControllerType.unset
    TargetFanSpeeds := []
    FanTemperatureSources := [] }

/-- A fan in Auto mode used by concrete instances. -/
def fanAutoW : Fan :=
  { fanConfig := fcPlain, mode := FanMode.auto, requestedSpeed := 0,
    targetSpeed := 0, isCritical := false, pendingWrite := none }

/-- A fan in Fixed mode at 42 percent used by concrete instances. -/
def fanFixedW : Fan :=
  { fanConfig := fcPlain, mode := FanMode.fixed, requestedSpeed := 42,
    targetSpeed := 42, isCritical := false, pendingWrite := none }

/-- Closed instance of the write-back of target fan speeds with the
length hypothesis discharged at concrete inputs. -/
theorem Service_WriteTargetFanSpeedsToConfig_spec_witness :
    ((Service_WriteTargetFanSpeedsToConfig scEmpty [fanAutoW, fanFixedW]).TargetFanSpeeds.length
      = mcTwoFans.FanConfigurations.length) ∧
    ((Service_WriteTargetFanSpeedsToConfig scEmpty [fanAutoW, fanFixedW]).TargetFanSpeeds[0]?
      = some ((-1 : Rat))) ∧
    ((Service_WriteTargetFanSpeedsToConfig scEmpty [fanAutoW, fanFixedW]).TargetFanSpeeds[1]?
      = some ((42 : Rat))) := by
  have h := Service_WriteTargetFanSpeedsToConfig_spec scEmpty mcTwoFans
    [fanAutoW, fanFixedW] (by decide)
  exact ⟨h.1, (h.2 0).trans (by rfl), (h.2 1).trans (by rfl)⟩

lemma ApplyRegisterWriteConfgurations_filter (cfgs : List RegisterWriteConfiguration) :
    ∀ (s : ECState) (init : Bool),
    ApplyRegisterWriteConfgurations s cfgs init =
      applyConfigsInOrder s (cfgs.filter (fun cfg =>
        init || decide (cfg.WriteOccasion = RegisterWriteOccasion.onWriteFanSpeed))) := by
  induction cfgs with
  | nil => intro s init; rfl
  | cons cfg rest ih =>
    intro s init
    rw [List.filter_cons]
    cases hc : (init || decide (cfg.WriteOccasion = RegisterWriteOccasion.onWriteFanSpeed)) with
    | false =>
      simp only [ApplyRegisterWriteConfgurations, hc, Bool.false_eq_true, if_false]
      exact ih s init
    | true =>
      simp only [ApplyRegisterWriteConfgurations, hc, if_true]
      simp only [applyConfigsInOrder]
      cases ApplyRegisterWriteConfig s cfg.Register cfg.Value cfg.WriteMode with
      | error e => rfl
      | ok s1 => exact ih s1 init

/-- C3: ApplyRegisterWriteConfgurations applies, in list order, exactly
the configurations for which initializing is true or WriteOccasion is
OnWriteFanSpeed; a successful application with mode Set stores the
configured value, with mode And the current register contents AND the
value, and with mode Or the current register contents OR the value. -/
theorem ApplyRegisterWriteConfgurations_spec :
    (∀ (s : ECState) (cfgs : List RegisterWriteConfiguration) (init : Bool),
      ApplyRegisterWriteConfgurations s cfgs init =
        applyConfigsInOrder s (cfgs.filter (fun cfg =>
          init || decide (cfg.WriteOccasion = RegisterWriteOccasion.onWriteFanSpeed)))) ∧
    (∀ (s : ECState) (r : Int) (v : Nat),
      s.readFail r = false → s.writeFail r = false →
      ApplyRegisterWriteConfig s r v RegisterWriteMode.set =
        .ok (s.setReg r v) ∧
      ApplyRegisterWriteConfig s r v RegisterWriteMode.and =
        .ok (s.setReg r (s.regs r &&& v)) ∧
      ApplyRegisterWriteConfig s r v RegisterWriteMode.or =
        .ok (s.setReg r (s.regs r ||| v))) := by
  refine ⟨fun s cfgs init => ApplyRegisterWriteConfgurations_filter cfgs s init,
    fun s r v hr hw => ⟨?_, ?_, ?_⟩⟩
  · simp [ApplyRegisterWriteConfig, ECWriteByte, hw]
  · simp [ApplyRegisterWriteConfig, ECReadByte, ECWriteByte, hr, hw, Nat.and_comm]
  · simp [ApplyRegisterWriteConfig, ECReadByte, ECWriteByte, hr, hw, Nat.or_comm]

/-- An EC state whose registers all hold 0x0F and never fail. -/
def ecAll15 : ECState :=
  { regs := fun _ => 15, readFail := fun _ => false, writeFail := fun _ => false }

/-- Closed instance of the register-write engine semantics with the
no-failure hypotheses discharged at a concrete EC state. -/
theorem ApplyRegisterWriteConfgurations_spec_witness :
    ApplyRegisterWriteConfig ecAll15 3 240 RegisterWriteMode.set =
      .ok (ecAll15.setReg 3 240) ∧
    ApplyRegisterWriteConfig ecAll15 3 240 RegisterWriteMode.and =
      .ok (ecAll15.setReg 3 (ecAll15.regs 3 &&& 240)) ∧
    ApplyRegisterWriteConfig ecAll15 3 240 RegisterWriteMode.or =
      .ok (ecAll15.setReg 3 (ecAll15.regs 3 ||| 240)) :=
  ApplyRegisterWriteConfgurations_spec.2 ecAll15 3 240 rfl rfl

lemma ServiceConfig_Write_ectype (c : ServiceConfig) (s : String)
    (h : ("EmbeddedControllerType", JVal.jstr s) ∈ ServiceConfig_Write c) :
    EmbeddedControllerType_ToString c.EmbeddedControllerType = some s := by
  unfold ServiceConfig_Write at h
  rcases List.mem_append.mp h with h1 | h1
  swap
  · exfalso
    revert h1
    by_cases ht : c.FanTemperatureSources = [] <;> simp [ht]
  rcases List.mem_append.mp h1 with h2 | h2
  swap
  · exfalso
    revert h2
    by_cases ht : c.TargetFanSpeeds = [] <;> simp [ht]
  rcases List.mem_append.mp h2 with h3 | h3
  · exfalso
    revert h3
    cases c.SelectedConfigId <;> simp
  · cases ht : EmbeddedControllerType_ToString c.EmbeddedControllerType with
    | none => rw [ht] at h3; simp at h3
    | some v =>
      rw [ht] at h3
      simp at h3
      subst h3
      rfl

/-- C9: every embedded-controller type other than Unset round-trips
through its canonical string; each legacy alias parses to the same type
as its canonical counterpart; and the EmbeddedControllerType value
emitted by ServiceConfig_Write is always a canonical string (the image
of EmbeddedControllerType_ToString), never one of the aliases. -/
theorem EmbeddedControllerType_roundtrip :
    (∀ t : EmbeddedControllerType, t ≠ EmbeddedControllerType.unset →
      ∃ s : String, EmbeddedControllerType_ToString t = some s ∧
        EmbeddedControllerType_FromString s = t) ∧
    (EmbeddedControllerType_FromString "ec_sys_linux" =
        EmbeddedControllerType_FromString "ec_sys" ∧
     EmbeddedControllerType_FromString "ec_acpi" =
        EmbeddedControllerType_FromString "acpi_ec" ∧
     EmbeddedControllerType_FromString "ec_linux" =
        EmbeddedControllerType_FromString "dev_port") ∧
    (∀ (c : ServiceConfig) (s : String),
      ("EmbeddedControllerType", JVal.jstr s) ∈ ServiceConfig_Write c →
      (∃ t : EmbeddedControllerType, t ≠ EmbeddedControllerType.unset ∧
        EmbeddedControllerType_ToString t = some s) ∧
      s ∉ ["ec_sys_linux", "ec_acpi", "ec_linux"]) := by
  refine ⟨fun t ht => ?_, ⟨by decide, by decide, by decide⟩, fun c s h => ?_⟩
  · cases t with
    | ecSysLinux => exact ⟨"ec_sys", rfl, by decide⟩
    | ecSysLinuxACPI => exact ⟨"acpi_ec", rfl, by decide⟩
    | ecLinux => exact ⟨"dev_port", rfl, by decide⟩
    | ecDummy => exact ⟨"dummy", rfl, by decide⟩
    | unset => exact absurd rfl ht
  · have h1 := ServiceConfig_Write_ectype c s h
    cases ht : c.EmbeddedControllerType <;> rw [ht] at h1 <;>
      simp [EmbeddedControllerType_ToString] at h1
    · exact ⟨⟨EmbeddedControllerType.ecSysLinux, by decide, by rw [← h1]; rfl⟩,
        by rw [← h1]; decide⟩
    · exact ⟨⟨EmbeddedControllerType.ecSysLinuxACPI, by decide, by rw [← h1]; rfl⟩,
        by rw [← h1]; decide⟩
    · exact ⟨⟨EmbeddedControllerType.ecLinux, by decide, by rw [← h1]; rfl⟩,
        by rw [← h1]; decide⟩
    · exact ⟨⟨EmbeddedControllerType.ecDummy, by decide, by rw [← h1]; rfl⟩,
        by rw [← h1]; decide⟩

/-- A service configuration forcing the dev_port backend, used by the
round-trip instance. -/
def scDevPort : ServiceConfig :=
  { SelectedConfigId := some "Test"
    EmbeddedControllerType := EmbeddedControllerType.ecLinux
    TargetFanSpeeds := []
    FanTemperatureSources := [] }

/-- Closed instance of the embedded-controller type round-trip with
every hypothesis discharged at concrete inputs. -/
theorem EmbeddedControllerType_roundtrip_witness :
    (∃ s : String, EmbeddedControllerType_ToString EmbeddedControllerType.ecSysLinux = some s ∧
      EmbeddedControllerType_FromString s = EmbeddedControllerType.ecSysLinux) ∧
    ((∃ t : EmbeddedControllerType, t ≠ EmbeddedControllerType.unset ∧
        EmbeddedControllerType_ToString t = some "dev_port") ∧
      "dev_port" ∉ ["ec_sys_linux", "ec_acpi", "ec_linux"]) :=
  ⟨EmbeddedControllerType_roundtrip.1 EmbeddedControllerType.ecSysLinux (by decide),
   EmbeddedControllerType_roundtrip.2.2 scDevPort "dev_port"
     (List.Mem.tail _ (List.Mem.head _))⟩

lemma lastError_append (init : Option (List String))
    (l1 l2 : List (Option (List String))) :
    lastError init (l1 ++ l2) = lastError (lastError init l1) l2 :=
  List.foldl_append _ _ _ _

lemma lastError_eq_none_iff (l : List (Option (List String))) :
    ∀ init : Option (List String),
    (lastError init l = none ↔ (init = none ∧ ∀ e ∈ l, e = none)) := by
  induction l with
  | nil => intro init; simp [lastError]
  | cons x xs ih =>
    intro init
    cases x with
    | none =>
      rw [show lastError init (none :: xs) = lastError init xs from rfl]
      rw [ih init]
      simp
    | some e =>
      rw [show lastError init (some e :: xs) = lastError (some e) xs from rfl]
      rw [ih (some e)]
      simp

lemma fanResets_foldl (fans : List Fan) :
    ∀ (s0 : ECState) (r0 : Option (List String)),
    fans.foldl resetFanStep (s0, r0) =
      ((fanResetsResults s0 fans).1, lastError r0 (fanResetsResults s0 fans).2) := by
  induction fans with
  | nil => intro s0 r0; rfl
  | cons f fs ih =>
    intro s0 r0
    rw [List.foldl_cons]
    simp only [resetFanStep, fanResetsResults]
    cases hr : Fan_ECReset s0 f with
    | ok s1 =>
      rw [ih s1 r0]
      rfl
    | error e =>
      rw [ih s0 (some e)]
      rfl

lemma resetECTry_eq (cfgs : List RegisterWriteConfiguration) (fans : List Fan)
    (s : ECState) (r : Option (List String)) :
    resetECTry cfgs fans (s, r) =
      ((resetECTryResults cfgs fans s).1,
        lastError r (resetECTryResults cfgs fans s).2) := by
  simp only [resetECTry, resetECTryResults]
  rw [fanResets_foldl]
  cases hp : (ResetRegisterWriteConfigs s cfgs).2 with
  | none => rfl
  | some e => rfl

/-- C7 (amended): ResetEC runs the reset body exactly three times and
retains, across the results it observes (per try: the result of
ResetRegisterWriteConfigs followed by each Fan_ECReset result, in
order), the last error; it returns success exactly when every observed
result is a success.  ResetRegisterWriteConfigs itself reports only the
result of the last configuration it applies, so an earlier failed
register write inside it is not observed by ResetEC. -/
theorem ResetEC_retains_last_observed_error :
    ∀ (s : ECState) (cfgs : List RegisterWriteConfiguration) (fans : List Fan),
    (ResetEC s cfgs fans).2 = lastError none (resetECResults s cfgs fans) ∧
    ((ResetEC s cfgs fans).2 = none ↔
      ∀ e ∈ resetECResults s cfgs fans, e = none) := by
  intro s cfgs fans
  have h : (ResetEC s cfgs fans).2 = lastError none (resetECResults s cfgs fans) := by
    simp only [ResetEC, resetECResults]
    rw [resetECTry_eq, resetECTry_eq, resetECTry_eq]
    rw [lastError_append, lastError_append]
  refine ⟨h, ?_⟩
  rw [h]
  rw [lastError_eq_none_iff _ none]
  simp

/-- An EC state on which every write to register 1 fails. -/
def ecWriteFailReg1 : ECState :=
  { regs := fun _ => 0, readFail := fun _ => false,
    writeFail := fun r => decide (r = 1) }

/-- A reset-required register-write configuration targeting register 1. -/
def rwcResetA : RegisterWriteConfiguration :=
  { Register := 1, Value := 0, ResetValue := 5, ResetRequired := Boolean.bTrue,
    WriteMode := RegisterWriteMode.set, ResetWriteMode := RegisterWriteMode.set,
    WriteOccasion := RegisterWriteOccasion.onInitialization, Description := none }

/-- A reset-required register-write configuration targeting register 2. -/
def rwcResetB : RegisterWriteConfiguration :=
  { Register := 2, Value := 0, ResetValue := 7, ResetRequired := Boolean.bTrue,
    WriteMode := RegisterWriteMode.set, ResetWriteMode := RegisterWriteMode.set,
    WriteOccasion := RegisterWriteOccasion.onInitialization, Description := none }

/-- C7 as stated is false: on an EC where writes to register 1 fail,
resetting the configurations [rwcResetA, rwcResetB] has every attempt
to apply rwcResetA fail with an error, yet ResetEC returns success,
because ResetRegisterWriteConfigs overwrites its local error with the
result of each applied configuration and rwcResetB succeeds last. -/
theorem ResetEC_success_despite_failed_write :
    exceptIsOk (ApplyRegisterWriteConfig ecWriteFailReg1 rwcResetA.Register
      rwcResetA.ResetValue rwcResetA.ResetWriteMode) = false ∧
    (ResetEC ecWriteFailReg1 [rwcResetA, rwcResetB] []).2 = none :=
  ⟨rfl, rfl⟩

/-- A valid Fan argument: an integer index within 0..fancount-1. -/
def fanArgValid (fancount : Int) : JVal → Bool
  | .jint i => decide (0 ≤ i) && decide (i < fancount)
  | _ => false

/-- A Speed argument that is a number inside 0..100. -/
def speedArgInRange : JVal → Bool
  | .jdbl d => decide (0 ≤ d) && decide (d ≤ 100)
  | .jint i => decide (0 ≤ (i : Rat)) && decide ((i : Rat) ≤ 100)
  | _ => false

/-- A Speed argument that is a number outside 0..100. -/
def speedArgOutOfRange : JVal → Bool
  | .jdbl d => decide (d < 0) || decide (d > 100)
  | .jint i => decide ((i : Rat) < 0) || decide ((i : Rat) > 100)
  | _ => false

/-- The Speed argument selecting auto mode: the literal string auto. -/
def speedArgAuto : JVal → Bool
  | .jstr s => decide (s = "auto")
  | _ => false

/-- A Speed argument of invalid type: neither a number nor the literal
string auto. -/
def speedArgBadType : JVal → Bool
  | .jstr s => decide (s ≠ "auto")
  | .jint _ => false
  | .jdbl _ => false
  | _ => true

/-- A key-value pair acceptable to the Server_Command_Set_Fan argument
loop without an error on the key itself: the Command key, a valid Fan
argument, or the Speed key. -/
def setFanKeyOk (fancount : Int) (kv : String × JVal) : Bool :=
  decide (kv.1 = "Command") ||
  (decide (kv.1 = "Fan") && fanArgValid fancount kv.2) ||
  decide (kv.1 = "Speed")

lemma setFanParseLoop_out_of_range (fc : Int) (msg : List (String × JVal)) :
    ∀ (fan : Int) (speed : Rat),
    msg.all (setFanKeyOk fc) = true →
    msg.all (fun kv => !decide (kv.1 = "Speed") ||
      (speedArgInRange kv.2 || speedArgAuto kv.2 || speedArgOutOfRange kv.2)) = true →
    msg.any (fun kv => decide (kv.1 = "Speed") && speedArgOutOfRange kv.2) = true →
    setFanParseLoop fc msg fan speed = .error ["Speed: Invalid value"] := by
  induction msg with
  | nil => intro fan speed _ _ hany; simp at hany
  | cons kv rest ih =>
    obtain ⟨k, v⟩ := kv
    intro fan speed hall hspeeds hany
    rw [List.all_cons] at hall hspeeds
    rw [List.any_cons] at hany
    rcases Bool.and_eq_true_iff.mp hall with ⟨hk, hallr⟩
    rcases Bool.and_eq_true_iff.mp hspeeds with ⟨hs, hspeedsr⟩
    rcases Bool.or_eq_true_iff.mp hk with hk1 | hk1
    · rcases Bool.or_eq_true_iff.mp hk1 with hk2 | hk2
      · -- Command key
        have hkc := of_decide_eq_true hk2
        subst hkc
        rw [show setFanParseLoop fc (("Command", v) :: rest) fan speed =
          setFanParseLoop fc rest fan speed from rfl]
        apply ih fan speed hallr hspeedsr
        rcases Bool.or_eq_true_iff.mp hany with hh | hh
        · exact absurd hh (by simp)
        · exact hh
      · -- Fan key with a valid index
        rcases Bool.and_eq_true_iff.mp hk2 with ⟨hkf, hfv⟩
        have hkc := of_decide_eq_true hkf
        subst hkc
        cases v with
        | jint i =>
          simp only [fanArgValid] at hfv
          rcases Bool.and_eq_true_iff.mp hfv with ⟨h0, h1⟩
          have h0p := of_decide_eq_true h0
          have h1p := of_decide_eq_true h1
          rw [show setFanParseLoop fc (("Fan", JVal.jint i) :: rest) fan speed =
            if i < 0 then .error ["Fan: Cannot be negative"]
            else if i ≥ fc then .error ["Fan: No such fan available"]
            else setFanParseLoop fc rest i speed from rfl]
          rw [if_neg (by omega), if_neg (by omega)]
          apply ih i speed hallr hspeedsr
          rcases Bool.or_eq_true_iff.mp hany with hh | hh
          · exact absurd hh (by simp)
          · exact hh
        | jstr s => simp [fanArgValid] at hfv
        | jdbl d => simp [fanArgValid] at hfv
        | jbool b => simp [fanArgValid] at hfv
        | jnull => simp [fanArgValid] at hfv
        | jarr l => simp [fanArgValid] at hfv
        | jobj l => simp [fanArgValid] at hfv
    · -- Speed key
      have hkc := of_decide_eq_true hk1
      subst hkc
      have hs1 : (speedArgInRange v || speedArgAuto v || speedArgOutOfRange v) = true := by
        rcases Bool.or_eq_true_iff.mp hs with hh | hh
        · simp at hh
        · exact hh
      cases v with
      | jdbl d =>
        by_cases hout : (d < 0 ∨ d > 100)
        · rw [show setFanParseLoop fc (("Speed", JVal.jdbl d) :: rest) fan speed =
            if d < 0 ∨ d > 100 then .error ["Speed: Invalid value"]
            else setFanParseLoop fc rest fan d from rfl]
          rw [if_pos hout]
        · rw [show setFanParseLoop fc (("Speed", JVal.jdbl d) :: rest) fan speed =
            if d < 0 ∨ d > 100 then .error ["Speed: Invalid value"]
            else setFanParseLoop fc rest fan d from rfl]
          rw [if_neg hout]
          apply ih fan d hallr hspeedsr
          rcases Bool.or_eq_true_iff.mp hany with hh | hh
          · exfalso
            rcases Bool.and_eq_true_iff.mp hh with ⟨-, hh2⟩
            simp only [speedArgOutOfRange] at hh2
            rcases Bool.or_eq_true_iff.mp hh2 with hh3 | hh3
            · exact hout (Or.inl (of_decide_eq_true hh3))
            · exact hout (Or.inr (of_decide_eq_true hh3))
          · exact hh
      | jint i =>
        by_cases hout : ((i : Rat) < 0 ∨ (i : Rat) > 100)
        · rw [show setFanParseLoop fc (("Speed", JVal.jint i) :: rest) fan speed =
            if (i : Rat) < 0 ∨ (i : Rat) > 100 then .error ["Speed: Invalid value"]
            else setFanParseLoop fc rest fan (i : Rat) from rfl]
          rw [if_pos hout]
        · rw [show setFanParseLoop fc (("Speed", JVal.jint i) :: rest) fan speed =
            if (i : Rat) < 0 ∨ (i : Rat) > 100 then .error ["Speed: Invalid value"]
            else setFanParseLoop fc rest fan (i : Rat) from rfl]
          rw [if_neg hout]
          apply ih fan (i : Rat) hallr hspeedsr
          rcases Bool.or_eq_true_iff.mp hany with hh | hh
          · exfalso
            rcases Bool.and_eq_true_iff.mp hh with ⟨-, hh2⟩
            simp only [speedArgOutOfRange] at hh2
            rcases Bool.or_eq_true_iff.mp hh2 with hh3 | hh3
            · exact hout (Or.inl (of_decide_eq_true hh3))
            · exact hout (Or.inr (of_decide_eq_true hh3))
          · exact hh
      | jstr s =>
        have hsa : s = "auto" := by
          rcases Bool.or_eq_true_iff.mp hs1 with hh | hh
          · rcases Bool.or_eq_true_iff.mp hh with hh2 | hh2
            · simp [speedArgInRange] at hh2
            · exact of_decide_eq_true hh2
          · simp [speedArgOutOfRange] at hh
        subst hsa
        rw [show setFanParseLoop fc (("Speed", JVal.jstr "auto") :: rest) fan speed =
          setFanParseLoop fc rest fan (-1) from rfl]
        apply ih fan (-1) hallr hspeedsr
        rcases Bool.or_eq_true_iff.mp hany with hh | hh
        · exfalso
          rcases Bool.and_eq_true_iff.mp hh with ⟨-, hh2⟩
          simp [speedArgOutOfRange] at hh2
        · exact hh
      | jbool b => simp [speedArgInRange, speedArgAuto, speedArgOutOfRange] at hs1
      | jnull => simp [speedArgInRange, speedArgAuto, speedArgOutOfRange] at hs1
      | jarr l => simp [speedArgInRange, speedArgAuto, speedArgOutOfRange] at hs1
      | jobj l => simp [speedArgInRange, speedArgAuto, speedArgOutOfRange] at hs1

lemma setFanParseLoop_bad_type (fc : Int) (msg : List (String × JVal)) :
    ∀ (fan : Int) (speed : Rat),
    msg.all (setFanKeyOk fc) = true →
    msg.all (fun kv => !decide (kv.1 = "Speed") ||
      (speedArgInRange kv.2 || speedArgAuto kv.2 || speedArgBadType kv.2)) = true →
    msg.any (fun kv => decide (kv.1 = "Speed") && speedArgBadType kv.2) = true →
    setFanParseLoop fc msg fan speed =
      .error ["Speed: Invalid type. Either float or 'auto'"] := by
  induction msg with
  | nil => intro fan speed _ _ hany; simp at hany
  | cons kv rest ih =>
    obtain ⟨k, v⟩ := kv
    intro fan speed hall hspeeds hany
    rw [List.all_cons] at hall hspeeds
    rw [List.any_cons] at hany
    rcases Bool.and_eq_true_iff.mp hall with ⟨hk, hallr⟩
    rcases Bool.and_eq_true_iff.mp hspeeds with ⟨hs, hspeedsr⟩
    rcases Bool.or_eq_true_iff.mp hk with hk1 | hk1
    · rcases Bool.or_eq_true_iff.mp hk1 with hk2 | hk2
      · have hkc := of_decide_eq_true hk2
        subst hkc
        rw [show setFanParseLoop fc (("Command", v) :: rest) fan speed =
          setFanParseLoop fc rest fan speed from rfl]
        apply ih fan speed hallr hspeedsr
        rcases Bool.or_eq_true_iff.mp hany with hh | hh
        · exact absurd hh (by simp)
        · exact hh
      · rcases Bool.and_eq_true_iff.mp hk2 with ⟨hkf, hfv⟩
        have hkc := of_decide_eq_true hkf
        subst hkc
        cases v with
        | jint i =>
          simp only [fanArgValid] at hfv
          rcases Bool.and_eq_true_iff.mp hfv with ⟨h0, h1⟩
          have h0p := of_decide_eq_true h0
          have h1p := of_decide_eq_true h1
          rw [show setFanParseLoop fc (("Fan", JVal.jint i) :: rest) fan speed =
            if i < 0 then .error ["Fan: Cannot be negative"]
            else if i ≥ fc then .error ["Fan: No such fan available"]
            else setFanParseLoop fc rest i speed from rfl]
          rw [if_neg (by omega), if_neg (by omega)]
          apply ih i speed hallr hspeedsr
          rcases Bool.or_eq_true_iff.mp hany with hh | hh
          · exact absurd hh (by simp)
          · exact hh
        | jstr s => simp [fanArgValid] at hfv
        | jdbl d => simp [fanArgValid] at hfv
        | jbool b => simp [fanArgValid] at hfv
        | jnull => simp [fanArgValid] at hfv
        | jarr l => simp [fanArgValid] at hfv
        | jobj l => simp [fanArgValid] at hfv
    · have hkc := of_decide_eq_true hk1
      subst hkc
      have hs1 : (speedArgInRange v || speedArgAuto v || speedArgBadType v) = true := by
        rcases Bool.or_eq_true_iff.mp hs with hh | hh
        · simp at hh
        · exact hh
      cases v with
      | jdbl d =>
        have hin : (0 ≤ d ∧ d ≤ 100) := by
          rcases Bool.or_eq_true_iff.mp hs1 with hh | hh
          · rcases Bool.or_eq_true_iff.mp hh with hh2 | hh2
            · simp only [speedArgInRange] at hh2
              rcases Bool.and_eq_true_iff.mp hh2 with ⟨a, b⟩
              exact ⟨of_decide_eq_true a, of_decide_eq_true b⟩
            · simp [speedArgAuto] at hh2
          · simp [speedArgBadType] at hh
        rw [show setFanParseLoop fc (("Speed", JVal.jdbl d) :: rest) fan speed =
          if d < 0 ∨ d > 100 then .error ["Speed: Invalid value"]
          else setFanParseLoop fc rest fan d from rfl]
        rw [if_neg (by rcases hin with ⟨a, b⟩; rintro (h | h) <;> linarith)]
        apply ih fan d hallr hspeedsr
        rcases Bool.or_eq_true_iff.mp hany with hh | hh
        · exfalso
          rcases Bool.and_eq_true_iff.mp hh with ⟨-, hh2⟩
          simp [speedArgBadType] at hh2
        · exact hh
      | jint i =>
        have hin : (0 ≤ (i : Rat) ∧ (i : Rat) ≤ 100) := by
          rcases Bool.or_eq_true_iff.mp hs1 with hh | hh
          · rcases Bool.or_eq_true_iff.mp hh with hh2 | hh2
            · simp only [speedArgInRange] at hh2
              rcases Bool.and_eq_true_iff.mp hh2 with ⟨a, b⟩
              exact ⟨of_decide_eq_true a, of_decide_eq_true b⟩
            · simp [speedArgAuto] at hh2
          · simp [speedArgBadType] at hh
        rw [show setFanParseLoop fc (("Speed", JVal.jint i) :: rest) fan speed =
          if (i : Rat) < 0 ∨ (i : Rat) > 100 then .error ["Speed: Invalid value"]
          else setFanParseLoop fc rest fan (i : Rat) from rfl]
        rw [if_neg (by rcases hin with ⟨a, b⟩; rintro (h | h) <;> linarith)]
        apply ih fan (i : Rat) hallr hspeedsr
        rcases Bool.or_eq_true_iff.mp hany with hh | hh
        · exfalso
          rcases Bool.and_eq_true_iff.mp hh with ⟨-, hh2⟩
          simp [speedArgBadType] at hh2
        · exact hh
      | jstr s =>
        by_cases hsa : s = "auto"
        · subst hsa
          rw [show setFanParseLoop fc (("Speed", JVal.jstr "auto") :: rest) fan speed =
            setFanParseLoop fc rest fan (-1) from rfl]
          apply ih fan (-1) hallr hspeedsr
          rcases Bool.or_eq_true_iff.mp hany with hh | hh
          · exfalso
            rcases Bool.and_eq_true_iff.mp hh with ⟨-, hh2⟩
            simp [speedArgBadType] at hh2
          · exact hh
        · rw [show setFanParseLoop fc (("Speed", JVal.jstr s) :: rest) fan speed =
            if s = "auto" then setFanParseLoop fc rest fan (-1)
            else .error ["Speed: Invalid type. Either float or 'auto'"] from rfl]
          rw [if_neg hsa]
      | jbool b =>
        rw [show setFanParseLoop fc (("Speed", JVal.jbool b) :: rest) fan speed =
          .error ["Speed: Invalid type. Either float or 'auto'"] from rfl]
      | jnull =>
        rw [show setFanParseLoop fc (("Speed", JVal.jnull) :: rest) fan speed =
          .error ["Speed: Invalid type. Either float or 'auto'"] from rfl]
      | jarr l =>
        rw [show setFanParseLoop fc (("Speed", JVal.jarr l) :: rest) fan speed =
          .error ["Speed: Invalid type. Either float or 'auto'"] from rfl]
      | jobj l =>
        rw [show setFanParseLoop fc (("Speed", JVal.jobj l) :: rest) fan speed =
          .error ["Speed: Invalid type. Either float or 'auto'"] from rfl]

/-- C1: a set-fan-speed request whose other arguments are acceptable
(Command, a valid Fan index, or Speed) but whose Speed argument is a
number outside 0..100 is answered with the error chain
[Speed: Invalid value], and one whose Speed argument has an invalid
type with [Speed: Invalid type. Either float or auto]; in both cases no
fan is modified, the EC state is untouched and nothing is persisted,
because the argument-validation loop of Server_Command_Set_Fan
completes before any fan mutation. -/
theorem Server_Command_Set_Fan_rejects_invalid_speed :
    ∀ (ro : Bool) (fc : Int) (fans : List Fan) (s : ECState)
      (msg : List (String × JVal)),
    msg.all (setFanKeyOk fc) = true →
    ((msg.all (fun kv => !decide (kv.1 = "Speed") ||
        (speedArgInRange kv.2 || speedArgAuto kv.2 || speedArgOutOfRange kv.2)) = true →
      msg.any (fun kv => decide (kv.1 = "Speed") && speedArgOutOfRange kv.2) = true →
      Server_Command_Set_Fan ro fc fans s msg =
        { reply := .error ["Speed: Invalid value"], fans := fans, ec := s,
          persisted := none }) ∧
     (msg.all (fun kv => !decide (kv.1 = "Speed") ||
        (speedArgInRange kv.2 || speedArgAuto kv.2 || speedArgBadType kv.2)) = true →
      msg.any (fun kv => decide (kv.1 = "Speed") && speedArgBadType kv.2) = true →
      Server_Command_Set_Fan ro fc fans s msg =
        { reply := .error ["Speed: Invalid type. Either float or 'auto'"],
          fans := fans, ec := s, persisted := none })) := by
  intro ro fc fans s msg hall
  constructor
  · intro h1 h2
    unfold Server_Command_Set_Fan
    rw [setFanParseLoop_out_of_range fc msg (-1) (-2) hall h1 h2]
  · intro h1 h2
    unfold Server_Command_Set_Fan
    rw [setFanParseLoop_bad_type fc msg (-1) (-2) hall h1 h2]

/-- A set-fan-speed request with an out-of-range Speed. -/
def msgBadValue : List (String × JVal) :=
  [("Command", JVal.jstr "set-fan-speed"), ("Speed", JVal.jint 150)]

/-- A set-fan-speed request with a Speed of invalid type. -/
def msgBadType : List (String × JVal) :=
  [("Command", JVal.jstr "set-fan-speed"), ("Speed", JVal.jbool true)]

/-- Closed instance of the set-fan-speed rejection with every
hypothesis discharged at concrete inputs. -/
theorem Server_Command_Set_Fan_rejects_invalid_speed_witness :
    (Server_Command_Set_Fan false 1 [fanAutoW] ecAll15 msgBadValue =
      { reply := .error ["Speed: Invalid value"], fans := [fanAutoW],
        ec := ecAll15, persisted := none }) ∧
    (Server_Command_Set_Fan false 1 [fanAutoW] ecAll15 msgBadType =
      { reply := .error ["Speed: Invalid type. Either float or 'auto'"],
        fans := [fanAutoW], ec := ecAll15, persisted := none }) :=
  ⟨(Server_Command_Set_Fan_rejects_invalid_speed false 1 [fanAutoW] ecAll15
      msgBadValue (by decide)).1 (by decide) (by decide),
   (Server_Command_Set_Fan_rejects_invalid_speed false 1 [fanAutoW] ecAll15
      msgBadType (by decide)).2 (by decide) (by decide)⟩

lemma fanForValidation_thresholds (i : Nat) (f : FanConfiguration) :
    (fanForValidation i f).TemperatureThresholds = f.TemperatureThresholds := rfl

/-- The threshold table a fan configuration ends up with after
validation: the default table (legacy or normal) when the configured
one is empty, the configured one otherwise. -/
def substitutedThresholds (legacy : Bool) (f : FanConfiguration) :
    List TemperatureThreshold :=
  if f.TemperatureThresholds = [] then
    if legacy then Config_DefaultLegacyTemperatureThresholds
    else Config_DefaultTemperatureThresholds
  else f.TemperatureThresholds

lemma validateFan_ok_thresholds (legacy : Bool) (crit : Int) (i : Nat)
    (f f1 : FanConfiguration) (ws : List (List String))
    (h : validateFan legacy crit i f = .ok (f1, ws)) :
    f1.TemperatureThresholds = substitutedThresholds legacy f := by
  simp only [validateFan] at h
  split at h
  · exact Except.noConfusion h
  split at h
  · exact Except.noConfusion h
  split at h
  · exact Except.noConfusion h
  split at h
  · exact Except.noConfusion h
  split at h
  · exact Except.noConfusion h
  injection h with h1
  simp only [Prod.mk.injEq] at h1
  rw [← h1.1]
  rfl

lemma validateFans_ok_thresholds (legacy : Bool) (crit : Int)
    (fs : List FanConfiguration) :
    ∀ (i : Nat) (fs1 : List FanConfiguration) (ws : List (List String)),
    validateFans legacy crit i fs = .ok (fs1, ws) →
    fs1.length = fs.length ∧
    ∀ k : Nat, fs1[k]?.map (fun g => g.TemperatureThresholds) =
      fs[k]?.map (substitutedThresholds legacy) := by
  induction fs with
  | nil =>
    intro i fs1 ws h
    simp only [validateFans] at h
    injection h with h1
    simp only [Prod.mk.injEq] at h1
    rw [← h1.1]
    exact ⟨rfl, fun k => by cases k <;> rfl⟩
  | cons f fs ih =>
    intro i fs1 ws h
    simp only [validateFans] at h
    cases hf : validateFan legacy crit i f with
    | error e => rw [hf] at h; exact Except.noConfusion h
    | ok p =>
      obtain ⟨f1, wsf⟩ := p
      rw [hf] at h
      cases hfs : validateFans legacy crit (i + 1) fs with
      | error e => rw [hfs] at h; exact Except.noConfusion h
      | ok q =>
        obtain ⟨fs2, wsr⟩ := q
        rw [hfs] at h
        injection h with h1
        have h2 := congrArg Prod.fst h1
        simp only at h2
        subst h2
        obtain ⟨hlen, hget⟩ := ih (i + 1) fs2 wsr hfs
        refine ⟨by simp [hlen], fun k => ?_⟩
        cases k with
        | zero =>
          simp only [List.getElem?_cons_zero, Option.map_some']
          rw [validateFan_ok_thresholds legacy crit i f f1 wsf hf]
        | succ n =>
          simp only [List.getElem?_cons_succ]
          exact hget n

/-- C6: whenever ModelConfig_Validate succeeds, each fan whose
configured TemperatureThresholds sequence was empty carries exactly the
default table (the legacy table when
LegacyTemperatureThresholdsBehaviour is set, the normal table
otherwise), and every non-empty threshold sequence is unchanged. -/
theorem ModelConfig_Validate_threshold_substitution :
    ∀ (c c1 : ModelConfig) (ws : List (List String)),
    ModelConfig_Validate c = .ok (c1, ws) →
    c1.FanConfigurations.length = c.FanConfigurations.length ∧
    ∀ k : Nat, c1.FanConfigurations[k]?.map (fun g => g.TemperatureThresholds) =
      c.FanConfigurations[k]?.map
        (substitutedThresholds c.LegacyTemperatureThresholdsBehaviour) := by
  intro c c1 ws h
  simp only [ModelConfig_Validate] at h
  split at h
  · exact Except.noConfusion h
  cases hr : validateRegCfgs 0 c.RegisterWriteConfigurations with
  | error e => rw [hr] at h; exact Except.noConfusion h
  | ok rwcs =>
    rw [hr] at h
    cases hf : validateFans c.LegacyTemperatureThresholdsBehaviour
        c.CriticalTemperature 0 c.FanConfigurations with
    | error e => rw [hf] at h; exact Except.noConfusion h
    | ok q =>
      obtain ⟨fans, wsf⟩ := q
      rw [hf] at h
      injection h with h1
      have h2 := congrArg Prod.fst h1
      simp only at h2
      subst h2
      have h3 := validateFans_ok_thresholds c.LegacyTemperatureThresholdsBehaviour
        c.CriticalTemperature c.FanConfigurations 0 fans wsf hf
      exact h3

/-- A one-fan model configuration with empty thresholds and the legacy
behaviour flag set. -/
def mcLegacyEmpty : ModelConfig :=
  { NotebookModel := some "Test"
    Author := none
    EcPollInterval := 3000
    CriticalTemperature := 100
    ReadWriteWords := false
    LegacyTemperatureThresholdsBehaviour := true
    FanConfigurations := [fcPlain]
    RegisterWriteConfigurations := [] }

/-- The expected result of validating mcLegacyEmpty: the legacy default
threshold table is substituted verbatim. -/
def mcLegacyEmptyOut : ModelConfig :=
  { mcLegacyEmpty with
    FanConfigurations :=
      [{ fcPlain with
          TemperatureThresholds := Config_DefaultLegacyTemperatureThresholds }] }

/-- Closed instance of the threshold substitution with the success
hypothesis discharged at a concrete configuration. -/
theorem ModelConfig_Validate_threshold_substitution_witness :
    (mcLegacyEmptyOut.FanConfigurations.length =
      mcLegacyEmpty.FanConfigurations.length) ∧
    (mcLegacyEmptyOut.FanConfigurations[0]?.map (fun g => g.TemperatureThresholds) =
      mcLegacyEmpty.FanConfigurations[0]?.map
        (substitutedThresholds mcLegacyEmpty.LegacyTemperatureThresholdsBehaviour)) :=
  ⟨(ModelConfig_Validate_threshold_substitution mcLegacyEmpty mcLegacyEmptyOut []
      rfl).1,
   (ModelConfig_Validate_threshold_substitution mcLegacyEmpty mcLegacyEmptyOut []
      rfl).2 0⟩

lemma validateOverrides_isOk (os : List FanSpeedPercentageOverride) :
    ∀ (i j : Nat), exceptIsOk (validateOverrides i j os) =
      os.all FanSpeedPercentageOverride_FieldsOk := by
  induction os with
  | nil => intro i j; rfl
  | cons o os ih =>
    intro i j
    simp only [validateOverrides, List.all_cons]
    by_cases h : FanSpeedPercentageOverride_FieldsOk o = true
    · rw [if_neg (by simp [h]), ih i (j + 1), h, Bool.true_and]
    · have hf : FanSpeedPercentageOverride_FieldsOk o = false := by
        revert h; cases FanSpeedPercentageOverride_FieldsOk o <;> simp
      rw [if_pos (by simp [hf]), hf, Bool.false_and]
      rfl

lemma validateThresholdItems_isOk (crit : Int) (i : Nat)
    (all : List TemperatureThreshold) (l : List TemperatureThreshold) :
    ∀ j : Nat, exceptIsOk (validateThresholdItems crit i all j l) =
      thresholdItemsAccepted all j l := by
  induction l with
  | nil => intro j; rfl
  | cons t ts ih =>
    intro j
    simp only [validateThresholdItems, thresholdItemsAccepted]
    by_cases h1 : TemperatureThreshold_FieldsOk t = true
    swap
    · have h1f : TemperatureThreshold_FieldsOk t = false := by
        revert h1; cases TemperatureThreshold_FieldsOk t <;> simp
      rw [if_pos (by simp [h1f]), h1f, Bool.false_and]
      rfl
    · rw [if_neg (by simp [h1]), h1, Bool.true_and]
      by_cases h2 : t.UpThreshold < t.DownThreshold
      · rw [if_pos h2]
        have hd : decide (t.DownThreshold ≤ t.UpThreshold) = false := by
          simp; omega
        rw [hd, Bool.false_and]
        rfl
      · rw [if_neg h2]
        have hd : decide (t.DownThreshold ≤ t.UpThreshold) = true := by
          simp; omega
        rw [hd, Bool.true_and]
        by_cases h3 : hasOtherSameUp all j t = true
        · rw [if_pos (by simp [h3]), h3, Bool.not_true, Bool.false_and]
          rfl
        · have h3f : hasOtherSameUp all j t = false := by
            revert h3; cases hasOtherSameUp all j t <;> simp
          rw [if_neg (by simp [h3f]), h3f, Bool.not_false, Bool.true_and]
          have ihj := ih (j + 1)
          cases hr : validateThresholdItems crit i all (j + 1) ts with
          | error e => rw [hr] at ihj; exact ihj
          | ok ws1 => rw [hr] at ihj; exact ihj

lemma validateFan_isOk (legacy : Bool) (crit : Int) (i : Nat)
    (f : FanConfiguration) :
    exceptIsOk (validateFan legacy crit i f) = fanAccepted legacy i f := by
  simp only [validateFan, fanAccepted]
  by_cases h1 : FanConfiguration_FieldsOk (fanForValidation i f) = true
  swap
  · have h1f : FanConfiguration_FieldsOk (fanForValidation i f) = false := by
      revert h1; cases FanConfiguration_FieldsOk (fanForValidation i f) <;> simp
    rw [if_pos (by simp [h1f]), h1f, Bool.false_and]
    rfl
  · rw [if_neg (by simp [h1]), h1, Bool.true_and]
    by_cases h2 : (fanForValidation i f).MinSpeedValue =
        (fanForValidation i f).MaxSpeedValue
    · rw [if_pos h2]
      have hd : decide ((fanForValidation i f).MinSpeedValue ≠
          (fanForValidation i f).MaxSpeedValue) = false := by simp [h2]
      rw [hd, Bool.false_and]
      rfl
    · rw [if_neg h2]
      have hd : decide ((fanForValidation i f).MinSpeedValue ≠
          (fanForValidation i f).MaxSpeedValue) = true := by simp [h2]
      rw [hd, Bool.true_and]
      by_cases h3 : ((fanForValidation i f).IndependentReadMinMaxValues.isTruthy = true ∧
          (fanForValidation i f).MinSpeedValueRead = (fanForValidation i f).MaxSpeedValueRead)
      · rw [if_pos h3]
        have hb : ((fanForValidation i f).IndependentReadMinMaxValues.isTruthy &&
            decide ((fanForValidation i f).MinSpeedValueRead =
              (fanForValidation i f).MaxSpeedValueRead)) = true := by
          rw [h3.1, Bool.true_and]
          simp [h3.2]
        rw [hb, Bool.not_true, Bool.false_and]
        rfl
      · rw [if_neg h3]
        have hb : ((fanForValidation i f).IndependentReadMinMaxValues.isTruthy &&
            decide ((fanForValidation i f).MinSpeedValueRead =
              (fanForValidation i f).MaxSpeedValueRead)) = false := by
          cases hA : (fanForValidation i f).IndependentReadMinMaxValues.isTruthy with
          | false => rw [Bool.false_and]
          | true =>
            rw [Bool.true_and]
            have : ¬ ((fanForValidation i f).MinSpeedValueRead =
                (fanForValidation i f).MaxSpeedValueRead) :=
              fun hc => h3 ⟨hA, hc⟩
            simp [this]
        rw [hb, Bool.not_false, Bool.true_and]
        have hov := validateOverrides_isOk (fanForValidation i f).FanSpeedPercentageOverrides i 0
        cases ho : validateOverrides i 0 (fanForValidation i f).FanSpeedPercentageOverrides with
        | error e =>
          rw [ho] at hov
          rw [← hov]
          rfl
        | ok u =>
          rw [ho] at hov
          rw [← hov]
          have hth := validateThresholdItems_isOk crit i
            (if (fanForValidation i f).TemperatureThresholds = [] then
              if legacy then Config_DefaultLegacyTemperatureThresholds
              else Config_DefaultTemperatureThresholds
            else (fanForValidation i f).TemperatureThresholds)
            (if (fanForValidation i f).TemperatureThresholds = [] then
              if legacy then Config_DefaultLegacyTemperatureThresholds
              else Config_DefaultTemperatureThresholds
            else (fanForValidation i f).TemperatureThresholds) 0
          cases ht : validateThresholdItems crit i
              (if (fanForValidation i f).TemperatureThresholds = [] then
                if legacy then Config_DefaultLegacyTemperatureThresholds
                else Config_DefaultTemperatureThresholds
              else (fanForValidation i f).TemperatureThresholds) 0
              (if (fanForValidation i f).TemperatureThresholds = [] then
                if legacy then Config_DefaultLegacyTemperatureThresholds
                else Config_DefaultTemperatureThresholds
              else (fanForValidation i f).TemperatureThresholds) with
          | error e => rw [ht] at hth; rw [← hth]; rfl
          | ok ws1 => rw [ht] at hth; rw [← hth]; rfl

lemma validateFans_isOk (fs : List FanConfiguration) :
    ∀ (legacy : Bool) (crit : Int) (i : Nat),
    exceptIsOk (validateFans legacy crit i fs) = fansAccepted legacy i fs := by
  induction fs with
  | nil => intro legacy crit i; rfl
  | cons f fs ih =>
    intro legacy crit i
    simp only [validateFans, fansAccepted]
    have hfn := validateFan_isOk legacy crit i f
    cases hf : validateFan legacy crit i f with
    | error e =>
      rw [hf] at hfn
      rw [← hfn]
      rfl
    | ok p =>
      obtain ⟨f1, wsf⟩ := p
      rw [hf] at hfn
      rw [← hfn]
      have hfsn := ih legacy crit (i + 1)
      cases hfs : validateFans legacy crit (i + 1) fs with
      | error e => rw [hfs] at hfsn; rw [← hfsn]; rfl
      | ok q => obtain ⟨fs1, ws1⟩ := q; rw [hfs] at hfsn; rw [← hfsn]; rfl

lemma validateRegCfgs_isOk (rs : List RegisterWriteConfiguration) :
    ∀ j : Nat, exceptIsOk (validateRegCfgs j rs) =
      rs.all (fun r => RegisterWriteConfiguration_FieldsOk (forceRegReset r)) := by
  induction rs with
  | nil => intro j; rfl
  | cons r rs ih =>
    intro j
    simp only [validateRegCfgs, List.all_cons]
    by_cases h : RegisterWriteConfiguration_FieldsOk (forceRegReset r) = true
    · rw [if_neg (by simp [h]), h, Bool.true_and]
      have ihj := ih (j + 1)
      cases hr : validateRegCfgs (j + 1) rs with
      | error e => rw [hr] at ihj; rw [← ihj]
      | ok rs1 => rw [hr] at ihj; rw [← ihj]; rfl
    · have hf : RegisterWriteConfiguration_FieldsOk (forceRegReset r) = false := by
        revert h; cases RegisterWriteConfiguration_FieldsOk (forceRegReset r) <;> simp
      rw [if_pos (by simp [hf]), hf, Bool.false_and]
      rfl

/-- A fan configuration whose single threshold has UpThreshold above
the critical temperature of mcWarnExample and no entry with FanSpeed 0
or FanSpeed 100. -/
def fcWarn : FanConfiguration :=
  { fcPlain with TemperatureThresholds := [⟨70, 50, 40⟩] }

/-- A model configuration that exercises all three warn-only branches
of ModelConfig_Validate and fails none of the hard checks. -/
def mcWarnExample : ModelConfig :=
  { NotebookModel := some "Test"
    Author := none
    EcPollInterval := 3000
    CriticalTemperature := 60
    ReadWriteWords := false
    LegacyTemperatureThresholdsBehaviour := false
    FanConfigurations := [fcWarn]
    RegisterWriteConfigurations := [] }

/-- C10: ModelConfig_Validate succeeds exactly when the acceptance
predicate holds, and the acceptance predicate makes no reference to
CriticalTemperature nor to the presence of thresholds with FanSpeed 0
or 100 - so validation never fails because an UpThreshold exceeds
CriticalTemperature or because those fan speeds are absent.  On a
configuration exercising all three conditions, validation returns
success with exactly the three warnings. -/
theorem ModelConfig_Validate_isOk_iff_accepted :
    (∀ c : ModelConfig,
      exceptIsOk (ModelConfig_Validate c) = ModelConfig_Accepted c) ∧
    (ModelConfig_Validate mcWarnExample = .ok (mcWarnExample,
      [[traceFanThresh 0 0, "UpThreshold cannot be greater than CriticalTemperature"],
       [traceFan 0, "No threshold with FanSpeed == 0 found"],
       [traceFan 0, "No threshold with FanSpeed == 100 found"]])) := by
  constructor
  · intro c
    simp only [ModelConfig_Validate, ModelConfig_Accepted]
    by_cases h : ModelConfig_FieldsOk c = true
    swap
    · have hf : ModelConfig_FieldsOk c = false := by
        revert h; cases ModelConfig_FieldsOk c <;> simp
      rw [if_pos (by simp [hf]), hf, Bool.false_and]
      rfl
    · rw [if_neg (by simp [h]), h, Bool.true_and]
      have hrn := validateRegCfgs_isOk c.RegisterWriteConfigurations 0
      cases hr : validateRegCfgs 0 c.RegisterWriteConfigurations with
      | error e =>
        rw [hr] at hrn
        rw [← hrn]
        rfl
      | ok rwcs =>
        rw [hr] at hrn
        rw [← hrn]
        have hfn := validateFans_isOk c.FanConfigurations
          c.LegacyTemperatureThresholdsBehaviour c.CriticalTemperature 0
        cases hf : validateFans c.LegacyTemperatureThresholdsBehaviour
            c.CriticalTemperature 0 c.FanConfigurations with
        | error e => rw [hf] at hfn; rw [← hfn]; rfl
        | ok q => obtain ⟨fans, ws⟩ := q; rw [hf] at hfn; rw [← hfn]; rfl
  · rfl

end Nbfc
